import Mathlib

/-!
Shallow embedding of the deterministic tick engine of the `sim_core` crate
(planetary sandbox simulator), together with proofs checking the crate's
natural-language specification against the code.

Conventions of the embedding:
* Rust `u16`/`u32`/`u8`/`usize` values are modelled as `Nat`; `i16`/`i32`/`i64`
  values are modelled as `Int`.  Casts that are exact on the reachable value
  ranges are modelled as the identity (each such spot carries a comment).
* Sparse per-region lists (`Vec<ScalarValue>` etc., kept sorted by `region`
  and written through `binary_search_by_key`) are modelled as lists with an
  ordered linear insert, which coincides with binary-search insertion on
  sorted inputs.
* Fallible code returns `Except String`.
-/

namespace Sim

/-! ## Fixed-point primitives (`src/fixed.rs`) -/

/-- Upper bound for the water meter, `fixed.rs::WATER_MAX`. -/
def WATER_MAX : Nat := 10000

/-- Upper bound for the soil meter, `fixed.rs::SOIL_MAX`. -/
def SOIL_MAX : Nat := 10000

/-- Upper bound for albedo values in milli-units, `fixed.rs::ALBEDO_MAX`. -/
def ALBEDO_MAX : Nat := 1000

/-- Upper bound for freshwater flux, `fixed.rs::FRESHWATER_FLUX_MAX`. -/
def FRESHWATER_FLUX_MAX : Nat := 2000

/-- Clamp an `i32` value into a `u16` range, `fixed.rs::clamp_u16`.
The Rust code computes `value.clamp(min as i32, max as i32) as u16`; for
`min ≤ max ≤ 65535` the final cast is exact, so the result is the clamped
value read back as a natural number. -/
def clamp_u16 (value : Int) (lo hi : Nat) : Nat :=
  (min (max value (lo : Int)) (hi : Int)).toNat

/-- Clamp an `i32` value into an `i16` range, `fixed.rs::clamp_i16`. -/
def clamp_i16 (value lo hi : Int) : Int :=
  min (max value lo) hi

/-- Clamp a biome index into `[0, u8::MAX]`, `fixed.rs::clamp_biome_index`. -/
def clamp_biome_index (value : Int) : Nat :=
  (min (max value 0) 255).toNat

/-- Apply a signed delta to a resource meter, `fixed.rs::commit_resource_delta`. -/
def commit_resource_delta (current : Nat) (delta : Int) (maxv : Nat) : Nat :=
  clamp_u16 ((current : Int) + delta) 0 maxv

/-- Clamp hazard meters to the water range, `fixed.rs::clamp_hazard_meter`. -/
def clamp_hazard_meter (value : Nat) : Nat :=
  clamp_u16 (value : Int) 0 WATER_MAX

/-! ## Hazard gauge blending (`src/kernels/ecology.rs::blend_hazard`) -/

/-- Blend the previous hazard gauge toward the target with a per-tick
half-life, translated from `ecology.rs::blend_hazard`.  `previous` and
`target` are `u16` gauges; the intermediate arithmetic is `i32`.  The Rust
`blended as u16` cast is exact because `blended` lies between `0` and
`max previous target < 2^16`. -/
def blend_hazard (previous target : Nat) : Nat :=
  if previous = target then
    clamp_hazard_meter previous
  else
    let prev : Int := previous
    let goal : Int := target
    let d : Int := goal - prev
    let step : Int := if 0 < d then (d + 1).tdiv 2 else -(((-d) + 1).tdiv 2)
    let blended : Int := max (prev + step) 0
    clamp_hazard_meter blended.toNat

/-- Modelled from the spec: the blending formula asserted by the spec,
`prev + sign(target − prev)·⌈|target − prev|/2⌉` (rounding away from zero)
clamped to `[0, 10000]`.  Stated separately from `blend_hazard` so the two
can be compared. -/
def blend_hazard_spec (previous target : Nat) : Nat :=
  let prev : Int := previous
  let goal : Int := target
  let d : Int := goal - prev
  let step : Int := if 0 < d then ((d.natAbs + 1) / 2 : Nat)
    else if d < 0 then -(((d.natAbs + 1) / 2 : Nat) : Int) else 0
  (min (max (prev + step) 0) 10000).toNat

/-! ## Cause codes (`src/cause.rs`) -/

/-- Canonical cause code enumeration, translated constructor-for-constructor
(in declaration order) from `cause.rs::Code`. -/
inductive Code where
  | LatitudeBelt
  | OrographicLift
  | SeasonalityVariance
  | HadleyCell
  | HadleyDrift
  | MonsoonOnset
  | RainShadow
  | HumidityTransport
  | EnergyBalanceAdjustment
  | OrogenyBelt
  | VolcanicAerosolPulse
  | SubsidenceDeltas
  | CmeEvent
  | InsolationGradient
  | ObliquityShift
  | PrecessionPhase
  | SolarCyclePeak
  | TideNeap
  | TideSpring
  | SoilFertilityLow
  | DroughtFlag
  | FloodFlag
  | AlbedoFeedback
  | GlacierMassBalance
  | FreshwaterPulse
  | EraEnd
  | StagnationWarning
  | CollapseWarning
  deriving DecidableEq, Repr

/-- Snake-case label of a cause code, translated from the `Display`
implementation for `cause.rs::Code` (also the `serde` snake_case rename). -/
def code_label (c : Code) : String :=
  match c with
  | .LatitudeBelt => "latitude_belt"
  | .OrographicLift => "orographic_lift"
  | .SeasonalityVariance => "seasonality_variance"
  | .HadleyCell => "hadley_cell"
  | .HadleyDrift => "hadley_drift"
  | .MonsoonOnset => "monsoon_onset"
  | .RainShadow => "rain_shadow"
  | .HumidityTransport => "humidity_transport"
  | .EnergyBalanceAdjustment => "energy_balance_adjustment"
  | .OrogenyBelt => "orogeny_belt"
  | .VolcanicAerosolPulse => "volcanic_aerosol_pulse"
  | .SubsidenceDeltas => "subsidence_deltas"
  | .CmeEvent => "cme_event"
  | .InsolationGradient => "insolation_gradient"
  | .ObliquityShift => "obliquity_shift"
  | .PrecessionPhase => "precession_phase"
  | .SolarCyclePeak => "solar_cycle_peak"
  | .TideNeap => "tide_neap"
  | .TideSpring => "tide_spring"
  | .SoilFertilityLow => "soil_fertility_low"
  | .DroughtFlag => "drought_flag"
  | .FloodFlag => "flood_flag"
  | .AlbedoFeedback => "albedo_feedback"
  | .GlacierMassBalance => "glacier_mass_balance"
  | .FreshwaterPulse => "freshwater_pulse"
  | .EraEnd => "era_end"
  | .StagnationWarning => "stagnation_warning"
  | .CollapseWarning => "collapse_warning"

/-- Position of a cause code in the enum's declaration order; the derived
Rust `Ord` on `Code` compares by this discriminant. -/
def codeIdx (c : Code) : Nat :=
  match c with
  | .LatitudeBelt => 0
  | .OrographicLift => 1
  | .SeasonalityVariance => 2
  | .HadleyCell => 3
  | .HadleyDrift => 4
  | .MonsoonOnset => 5
  | .RainShadow => 6
  | .HumidityTransport => 7
  | .EnergyBalanceAdjustment => 8
  | .OrogenyBelt => 9
  | .VolcanicAerosolPulse => 10
  | .SubsidenceDeltas => 11
  | .CmeEvent => 12
  | .InsolationGradient => 13
  | .ObliquityShift => 14
  | .PrecessionPhase => 15
  | .SolarCyclePeak => 16
  | .TideNeap => 17
  | .TideSpring => 18
  | .SoilFertilityLow => 19
  | .DroughtFlag => 20
  | .FloodFlag => 21
  | .AlbedoFeedback => 22
  | .GlacierMassBalance => 23
  | .FreshwaterPulse => 24
  | .EraEnd => 25
  | .StagnationWarning => 26
  | .CollapseWarning => 27

/-- Structured cause entry, translated from `cause.rs::Entry`. -/
structure Entry where
  target : String
  code : Code
  note : Option String
  deriving DecidableEq, Repr

/-! ## Comparator machinery

Rust's `String: Ord` is byte-lexicographic on UTF-8, which coincides with
codepoint-lexicographic order, so strings are compared by comparing their
character codepoints. -/

/-- Three-way comparison of naturals, the model of Rust's integer `cmp`. -/
def natCmp (a b : Nat) : Ordering :=
  if a < b then .lt else if b < a then .gt else .eq

/-- Lexicographic three-way comparison of character lists, the model of
Rust's `String::cmp`. -/
def listCmp : List Char → List Char → Ordering
  | [], [] => .eq
  | [], _ :: _ => .lt
  | _ :: _, [] => .gt
  | a :: as, b :: bs =>
    match natCmp a.toNat b.toNat with
    | .eq => listCmp as bs
    | o => o

/-- String comparison via the underlying character list. -/
def strCmp (a b : String) : Ordering :=
  listCmp a.data b.data

/-- Comparison on optional notes, the model of `Option<String>: Ord`
(`None` sorts before `Some`). -/
def optNoteCmp : Option String → Option String → Ordering
  | none, none => .eq
  | none, some _ => .lt
  | some _, none => .gt
  | some a, some b => strCmp a b

/-- Sequence two comparisons lexicographically, the model of the nested
`match … { Ordering::Equal => …, other => other }` pattern in
`diff.rs::record_cause`. -/
def cmpThen (o₁ o₂ : Ordering) : Ordering :=
  match o₁ with
  | .eq => o₂
  | o => o

/-- Lexicographic comparison of cause entries by `(target, code, note)`,
translated from the comparator closure in `diff.rs::record_cause`. -/
def entry_cmp (a b : Entry) : Ordering :=
  cmpThen (strCmp a.target b.target)
    (cmpThen (natCmp (codeIdx a.code) (codeIdx b.code)) (optNoteCmp a.note b.note))

/-- Non-strict order on cause entries induced by the comparator. -/
def causeLe (a b : Entry) : Prop := entry_cmp a b ≠ .gt

instance : DecidableRel causeLe := fun a b => by
  unfold causeLe
  infer_instance

theorem natCmp_eq_iff {a b : Nat} : natCmp a b = .eq ↔ a = b := by
  unfold natCmp
  split <;> [skip; split] <;> simp <;> omega

theorem natCmp_lt_iff {a b : Nat} : natCmp a b = .lt ↔ a < b := by
  unfold natCmp
  split <;> [skip; split] <;> simp <;> omega

theorem natCmp_gt_iff {a b : Nat} : natCmp a b = .gt ↔ b < a := by
  unfold natCmp
  split <;> [skip; split] <;> simp <;> omega

theorem listCmp_swap : ∀ a b, listCmp a b = .gt ↔ listCmp b a = .lt := by
  intro a
  induction a with
  | nil => intro b; cases b <;> simp [listCmp]
  | cons x xs ih =>
    intro b
    cases b with
    | nil => simp [listCmp]
    | cons y ys =>
      simp only [listCmp]
      rcases h : natCmp x.toNat y.toNat with _ | _ | _
      · rw [natCmp_lt_iff] at h
        rw [show natCmp y.toNat x.toNat = .gt from natCmp_gt_iff.mpr h]
        simp
      · rw [natCmp_eq_iff] at h
        rw [show natCmp y.toNat x.toNat = .eq from natCmp_eq_iff.mpr h.symm]
        exact ih ys
      · rw [natCmp_gt_iff] at h
        rw [show natCmp y.toNat x.toNat = .lt from natCmp_lt_iff.mpr h]
        simp

theorem listCmp_le_trans :
    ∀ a b c, listCmp a b ≠ .gt → listCmp b c ≠ .gt → listCmp a c ≠ .gt := by
  intro a
  induction a with
  | nil =>
    intro b c _ _
    cases c <;> simp [listCmp]
  | cons x xs ih =>
    intro b c hab hbc
    cases b with
    | nil => simp [listCmp] at hab
    | cons y ys =>
      cases c with
      | nil => simp [listCmp] at hbc
      | cons z zs =>
        simp only [listCmp] at hab hbc ⊢
        rcases h1 : natCmp x.toNat y.toNat with _ | _ | _ <;>
          rcases h2 : natCmp y.toNat z.toNat with _ | _ | _ <;>
            simp only [h1, h2] at hab hbc ⊢
        · rw [natCmp_lt_iff] at h1 h2
          rw [show natCmp x.toNat z.toNat = .lt from natCmp_lt_iff.mpr (h1.trans h2)]
          simp
        · rw [natCmp_lt_iff] at h1
          rw [natCmp_eq_iff] at h2
          rw [show natCmp x.toNat z.toNat = .lt from natCmp_lt_iff.mpr (h2 ▸ h1)]
          simp
        · exact absurd rfl hbc
        · rw [natCmp_eq_iff] at h1
          rw [natCmp_lt_iff] at h2
          rw [show natCmp x.toNat z.toNat = .lt from natCmp_lt_iff.mpr (h1 ▸ h2)]
          simp
        · rw [natCmp_eq_iff] at h1
          rw [natCmp_eq_iff] at h2
          rw [show natCmp x.toNat z.toNat = .eq from natCmp_eq_iff.mpr (h1.trans h2)]
          exact ih ys zs hab hbc
        · exact absurd rfl hbc
        · exact absurd rfl hab
        · exact absurd rfl hab
        · exact absurd rfl hab

theorem listCmp_lt_trans :
    ∀ a b c, listCmp a b = .lt → listCmp b c = .lt → listCmp a c = .lt := by
  intro a
  induction a with
  | nil =>
    intro b c hab hbc
    cases b with
    | nil => exact absurd hab (by simp [listCmp])
    | cons y ys =>
      cases c with
      | nil => exact absurd hbc (by simp [listCmp])
      | cons z zs => simp [listCmp]
  | cons x xs ih =>
    intro b c hab hbc
    cases b with
    | nil => exact absurd hab (by simp [listCmp])
    | cons y ys =>
      cases c with
      | nil => exact absurd hbc (by simp [listCmp])
      | cons z zs =>
        simp only [listCmp] at hab hbc ⊢
        rcases h1 : natCmp x.toNat y.toNat with _ | _ | _ <;>
          rcases h2 : natCmp y.toNat z.toNat with _ | _ | _ <;>
            simp only [h1, h2] at hab hbc ⊢
        · rw [natCmp_lt_iff] at h1 h2
          rw [show natCmp x.toNat z.toNat = .lt from natCmp_lt_iff.mpr (h1.trans h2)]
        · rw [natCmp_lt_iff] at h1
          rw [natCmp_eq_iff] at h2
          rw [show natCmp x.toNat z.toNat = .lt from natCmp_lt_iff.mpr (h2 ▸ h1)]
        · exact absurd hbc (by simp)
        · rw [natCmp_eq_iff] at h1
          rw [natCmp_lt_iff] at h2
          rw [show natCmp x.toNat z.toNat = .lt from natCmp_lt_iff.mpr (h1 ▸ h2)]
        · rw [natCmp_eq_iff] at h1
          rw [natCmp_eq_iff] at h2
          rw [show natCmp x.toNat z.toNat = .eq from natCmp_eq_iff.mpr (h1.trans h2)]
          exact ih ys zs hab hbc
        · exact absurd hbc (by simp)
        · exact absurd hab (by simp)
        · exact absurd hab (by simp)
        · exact absurd hab (by simp)

theorem listCmp_eq_iff : ∀ a b, listCmp a b = .eq ↔ a = b := by
  intro a
  induction a with
  | nil => intro b; cases b <;> simp [listCmp]
  | cons x xs ih =>
    intro b
    cases b with
    | nil => simp [listCmp]
    | cons y ys =>
      simp only [listCmp]
      rcases h : natCmp x.toNat y.toNat with _ | _ | _
      · rw [natCmp_lt_iff] at h
        simp only []
        constructor
        · intro hc; exact absurd hc (by simp)
        · rintro ⟨rfl, rfl⟩; omega
      · rw [natCmp_eq_iff] at h
        have hx : x = y := Char.eq_of_val_eq (UInt32.toNat.inj h)
        subst hx
        simp [ih ys]
      · rw [natCmp_gt_iff] at h
        simp only []
        constructor
        · intro hc; exact absurd hc (by simp)
        · rintro ⟨rfl, rfl⟩; omega

theorem strCmp_eq_iff {a b : String} : strCmp a b = .eq ↔ a = b := by
  unfold strCmp
  rw [listCmp_eq_iff]
  constructor
  · intro h
    cases a; cases b
    exact congrArg String.mk h
  · intro h; rw [h]

theorem strCmp_swap {a b : String} : strCmp a b = .gt ↔ strCmp b a = .lt :=
  listCmp_swap a.data b.data

theorem strCmp_lt_trans {a b c : String} :
    strCmp a b = .lt → strCmp b c = .lt → strCmp a c = .lt :=
  listCmp_lt_trans a.data b.data c.data

theorem optNoteCmp_eq_iff {a b : Option String} : optNoteCmp a b = .eq ↔ a = b := by
  cases a <;> cases b <;> simp [optNoteCmp, strCmp_eq_iff]

theorem optNoteCmp_swap {a b : Option String} :
    optNoteCmp a b = .gt ↔ optNoteCmp b a = .lt := by
  cases a <;> cases b <;> simp [optNoteCmp, strCmp_swap]

theorem optNoteCmp_lt_trans {a b c : Option String} :
    optNoteCmp a b = .lt → optNoteCmp b c = .lt → optNoteCmp a c = .lt := by
  intro h1 h2
  match a, b, c with
  | none, none, _ => exact absurd h1 (by simp [optNoteCmp])
  | none, some _, none => exact absurd h2 (by simp [optNoteCmp])
  | none, some _, some _ => simp [optNoteCmp]
  | some _, none, _ => exact absurd h1 (by simp [optNoteCmp])
  | some _, some _, none => exact absurd h2 (by simp [optNoteCmp])
  | some x, some y, some z =>
    simp only [optNoteCmp] at h1 h2 ⊢
    exact strCmp_lt_trans h1 h2

theorem codeIdx_inj {a b : Code} (h : codeIdx a = codeIdx b) : a = b := by
  revert h
  cases a <;> cases b <;> decide

theorem entry_cmp_eq_iff {a b : Entry} : entry_cmp a b = .eq ↔ a = b := by
  constructor
  · intro h
    unfold entry_cmp cmpThen at h
    rcases h1 : strCmp a.target b.target with _ | _ | _ <;> rw [h1] at h
    · exact absurd h (by simp)
    · rcases h2 : natCmp (codeIdx a.code) (codeIdx b.code) with _ | _ | _ <;> rw [h2] at h
      · exact absurd h (by simp)
      · rw [strCmp_eq_iff] at h1
        rw [natCmp_eq_iff] at h2
        rw [optNoteCmp_eq_iff] at h
        cases a; cases b
        simp only [Entry.mk.injEq]
        exact ⟨h1, codeIdx_inj h2, h⟩
      · exact absurd h (by simp)
    · exact absurd h (by simp)
  · rintro rfl
    unfold entry_cmp cmpThen
    rw [strCmp_eq_iff.mpr rfl, natCmp_eq_iff.mpr rfl, optNoteCmp_eq_iff.mpr rfl]


theorem optNoteCmp_le_trans {a b c : Option String} (h1 : optNoteCmp a b ≠ .gt)
    (h2 : optNoteCmp b c ≠ .gt) : optNoteCmp a c ≠ .gt := by
  rcases ha : optNoteCmp a b with _ | _ | _
  · rcases hb : optNoteCmp b c with _ | _ | _
    · rw [show optNoteCmp a c = .lt from optNoteCmp_lt_trans ha hb]; simp
    · rw [optNoteCmp_eq_iff] at hb
      rw [← hb, ha]; simp
    · exact absurd hb h2
  · rw [optNoteCmp_eq_iff] at ha
    rw [ha]; exact h2
  · exact absurd ha h1

theorem causeLe_trans {a b c : Entry} (hab : causeLe a b) (hbc : causeLe b c) :
    causeLe a c := by
  unfold causeLe entry_cmp cmpThen at hab hbc ⊢
  rcases h1 : strCmp a.target b.target with _ | _ | _ <;> rw [h1] at hab
  · -- a.target < b.target
    rcases h2 : strCmp b.target c.target with _ | _ | _ <;> rw [h2] at hbc
    · rw [strCmp_lt_trans h1 h2]; simp
    · rw [strCmp_eq_iff] at h2
      rw [← h2, h1]; simp
    · exact absurd rfl hbc
  · -- a.target = b.target
    rw [strCmp_eq_iff] at h1
    rcases h2 : strCmp b.target c.target with _ | _ | _ <;> rw [h2] at hbc
    · rw [h1, h2]; simp
    · rw [strCmp_eq_iff] at h2
      rw [h1, h2, strCmp_eq_iff.mpr rfl]
      -- code level
      rcases h3 : natCmp (codeIdx a.code) (codeIdx b.code) with _ | _ | _ <;> rw [h3] at hab
      · rcases h4 : natCmp (codeIdx b.code) (codeIdx c.code) with _ | _ | _ <;> rw [h4] at hbc
        · rw [natCmp_lt_iff] at h3 h4
          rw [show natCmp (codeIdx a.code) (codeIdx c.code) = .lt from
            natCmp_lt_iff.mpr (h3.trans h4)]
          simp
        · rw [natCmp_eq_iff] at h4
          rw [show natCmp (codeIdx a.code) (codeIdx c.code) = .lt from ?_]
          · simp
          · rw [← h4]; exact h3
        · exact absurd rfl hbc
      · rw [natCmp_eq_iff] at h3
        rcases h4 : natCmp (codeIdx b.code) (codeIdx c.code) with _ | _ | _ <;> rw [h4] at hbc
        · rw [show natCmp (codeIdx a.code) (codeIdx c.code) = .lt from ?_]
          · simp
          · rw [h3]; exact h4
        · rw [natCmp_eq_iff] at h4
          rw [show natCmp (codeIdx a.code) (codeIdx c.code) = .eq from
            natCmp_eq_iff.mpr (h3.trans h4)]
          exact optNoteCmp_le_trans hab hbc
        · exact absurd rfl hbc
      · exact absurd rfl hab
    · exact absurd rfl hbc
  · exact absurd rfl hab

theorem entry_cmp_swap {a b : Entry} : entry_cmp a b = .gt ↔ entry_cmp b a = .lt := by
  unfold entry_cmp cmpThen
  rcases h1 : strCmp a.target b.target with _ | _ | _
  · rw [show strCmp b.target a.target = .gt from strCmp_swap.mpr h1]
    simp
  · rw [strCmp_eq_iff] at h1
    rw [h1, strCmp_eq_iff.mpr rfl]
    rcases h2 : natCmp (codeIdx a.code) (codeIdx b.code) with _ | _ | _
    · rw [natCmp_lt_iff] at h2
      rw [show natCmp (codeIdx b.code) (codeIdx a.code) = .gt from natCmp_gt_iff.mpr h2]
      simp
    · rw [natCmp_eq_iff] at h2
      rw [h2, natCmp_eq_iff.mpr rfl]
      exact optNoteCmp_swap
    · rw [natCmp_gt_iff] at h2
      rw [show natCmp (codeIdx b.code) (codeIdx a.code) = .lt from natCmp_lt_iff.mpr h2]
      simp
  · rw [show strCmp b.target a.target = .lt from strCmp_swap.mp h1]
    simp

theorem causeLe_total (a b : Entry) : causeLe a b ∨ causeLe b a := by
  by_cases h : entry_cmp a b = .gt
  · right
    unfold causeLe
    rw [entry_cmp_swap.mp h]
    simp
  · exact Or.inl h


/-! ## The per-tick diff (`src/diff.rs`)

Region indices (`u32`/`usize` in the Rust) are modelled as `Nat`; the
`region_index as u32` casts in the `record_*` helpers are exact and
disappear.  The `Vec` fields are kept sorted by `region` through
`binary_search_by_key`; the binary-search insert-or-overwrite is modelled
by an ordered linear insert, which computes the same list on sorted
inputs. -/

/-- Biome override entry, `diff.rs::BiomeChange` (`biome: i32`). -/
structure BiomeChange where
  region : Nat
  biome : Int
  deriving DecidableEq, Repr

/-- Accumulating resource delta entry, `diff.rs::ResourceDelta`. -/
structure ResourceDelta where
  region : Nat
  delta : Int
  deriving DecidableEq, Repr

/-- Scalar override entry, `diff.rs::ScalarValue`. -/
structure ScalarValue where
  region : Nat
  value : Int
  deriving DecidableEq, Repr

/-- Energy diagnostics pair, `diff.rs::DiagEnergy`. -/
structure DiagEnergy where
  albedo_anomaly_milli : Int
  temp_adjust_tenths : Int
  deriving DecidableEq, Repr

/-- Hazard gauge event, `diff.rs::HazardEvent` (`drought`/`flood`: `u16`). -/
structure HazardEvent where
  region : Nat
  drought : Nat
  flood : Nat
  deriving DecidableEq, Repr

/-- Insert-or-overwrite into a region-keyed sorted list; the model of the
`binary_search_by_key`/`insert` pattern shared by `set_biome_value`,
`set_scalar_value` and `record_hazard` in `diff.rs`. -/
def upsertByKey (keyOf : α → Nat) : List α → α → List α
  | [], x => [x]
  | e :: rest, x =>
    if keyOf e < keyOf x then e :: upsertByKey keyOf rest x
    else if keyOf e = keyOf x then x :: rest
    else x :: e :: rest

/-- Insert-or-overwrite a biome change, `diff.rs::Diff::set_biome_value`. -/
def set_biome_value (target : List BiomeChange) (region : Nat) (biome : Int) :
    List BiomeChange :=
  upsertByKey BiomeChange.region target ⟨region, biome⟩

/-- Insert-or-overwrite a scalar value, `diff.rs::Diff::set_scalar_value`. -/
def set_scalar_value (target : List ScalarValue) (region : Nat) (value : Int) :
    List ScalarValue :=
  upsertByKey ScalarValue.region target ⟨region, value⟩

/-- Accumulate a water/soil delta, deleting the entry when the accumulated
delta reaches zero, `diff.rs::Diff::insert_delta`. -/
def insert_delta : List ResourceDelta → Nat → Int → List ResourceDelta
  | [], region, delta => [⟨region, delta⟩]
  | e :: rest, region, delta =>
    if e.region < region then e :: insert_delta rest region delta
    else if e.region = region then
      (if e.delta + delta = 0 then rest else ⟨region, e.delta + delta⟩ :: rest)
    else ⟨region, delta⟩ :: e :: rest

/-- Replace-or-insert a hazard event, `diff.rs::Diff::record_hazard`. -/
def record_hazard_list (target : List HazardEvent) (region drought flood : Nat) :
    List HazardEvent :=
  upsertByKey HazardEvent.region target ⟨region, drought, flood⟩

/-- Insert a cause entry into the `(target, code, note)`-ordered cause list,
`diff.rs::Diff::record_cause`.  The Rust performs a `binary_search_by` with
the entry comparator and inserts at `idx` on `Err(idx)` or at `idx + 1` on
`Ok(idx)`.  On a sorted list this is modelled by insertion after the run of
entries that compare `≤` to the new cause: the `Err` position is exactly that
point, and on `Ok` the probe landed inside a run of entries that compare
equal to `cause` — and entries comparing equal are identical (`(target,
code, note)` is the whole entry), so inserting anywhere inside or after the
run yields the same list. -/
def record_cause_list : List Entry → Entry → List Entry
  | [], cause => [cause]
  | e :: rest, cause =>
    if causeLe e cause then e :: record_cause_list rest cause
    else cause :: e :: rest

/-- Sparse per-tick change set, translated field-for-field from
`diff.rs::Diff`. -/
structure Diff where
  biome : List BiomeChange := []
  water : List ResourceDelta := []
  soil : List ResourceDelta := []
  insolation : List ScalarValue := []
  tide_envelope : List ScalarValue := []
  elevation : List ScalarValue := []
  temperature : List ScalarValue := []
  precipitation : List ScalarValue := []
  humidity : List ScalarValue := []
  albedo : List ScalarValue := []
  freshwater_flux : List ScalarValue := []
  ice_mass : List ScalarValue := []
  hazards : List HazardEvent := []
  causes : List Entry := []
  diag_energy : Option DiagEnergy := none
  deriving DecidableEq, Repr

namespace Diff

/-- Empty diff, `Diff::default()`. -/
def empty : Diff := {}

/-- Record a biome override, `Diff::record_biome` (`biome: u8`, widened to
`i32` before storing). -/
def record_biome (d : Diff) (region_index : Nat) (biome : Nat) : Diff :=
  { d with biome := set_biome_value d.biome region_index (biome : Int) }

/-- Record a water delta, skipping zero deltas, `Diff::record_water_delta`. -/
def record_water_delta (d : Diff) (region_index : Nat) (delta : Int) : Diff :=
  if delta = 0 then d
  else { d with water := insert_delta d.water region_index delta }

/-- Record a soil delta, skipping zero deltas, `Diff::record_soil_delta`. -/
def record_soil_delta (d : Diff) (region_index : Nat) (delta : Int) : Diff :=
  if delta = 0 then d
  else { d with soil := insert_delta d.soil region_index delta }

/-- Record an insolation override, `Diff::record_insolation`. -/
def record_insolation (d : Diff) (region_index : Nat) (value : Int) : Diff :=
  { d with insolation := set_scalar_value d.insolation region_index value }

/-- Record a tide envelope override, `Diff::record_tide_envelope`. -/
def record_tide_envelope (d : Diff) (region_index : Nat) (value : Int) : Diff :=
  { d with tide_envelope := set_scalar_value d.tide_envelope region_index value }

/-- Record an elevation override, `Diff::record_elevation`. -/
def record_elevation (d : Diff) (region_index : Nat) (value : Int) : Diff :=
  { d with elevation := set_scalar_value d.elevation region_index value }

/-- Record a temperature override, `Diff::record_temperature`. -/
def record_temperature (d : Diff) (region_index : Nat) (value : Int) : Diff :=
  { d with temperature := set_scalar_value d.temperature region_index value }

/-- Record a precipitation override, `Diff::record_precipitation`. -/
def record_precipitation (d : Diff) (region_index : Nat) (value : Int) : Diff :=
  { d with precipitation := set_scalar_value d.precipitation region_index value }

/-- Record a humidity override, `Diff::record_humidity`. -/
def record_humidity (d : Diff) (region_index : Nat) (value : Int) : Diff :=
  { d with humidity := set_scalar_value d.humidity region_index value }

/-- Record an albedo override, `Diff::record_albedo`. -/
def record_albedo (d : Diff) (region_index : Nat) (value : Int) : Diff :=
  { d with albedo := set_scalar_value d.albedo region_index value }

/-- Record a freshwater flux override, `Diff::record_freshwater_flux`. -/
def record_freshwater_flux (d : Diff) (region_index : Nat) (value : Int) : Diff :=
  { d with freshwater_flux := set_scalar_value d.freshwater_flux region_index value }

/-- Record an ice mass override, `Diff::record_ice_mass`. -/
def record_ice_mass (d : Diff) (region_index : Nat) (value : Int) : Diff :=
  { d with ice_mass := set_scalar_value d.ice_mass region_index value }

/-- Record a hazard pair, `Diff::record_hazard`. -/
def record_hazard (d : Diff) (region_index drought flood : Nat) : Diff :=
  { d with hazards := record_hazard_list d.hazards region_index drought flood }

/-- Record a cause entry, `Diff::record_cause`. -/
def record_cause (d : Diff) (cause : Entry) : Diff :=
  { d with causes := record_cause_list d.causes cause }

/-- Record the energy diagnostic, `Diff::record_diag_energy`. -/
def record_diag_energy (d : Diff) (diag : DiagEnergy) : Diff :=
  { d with diag_energy := some diag }

/-- Emptiness check, `Diff::is_empty`. -/
def is_empty (d : Diff) : Bool :=
  d.biome.isEmpty && d.water.isEmpty && d.soil.isEmpty && d.insolation.isEmpty
    && d.tide_envelope.isEmpty && d.elevation.isEmpty && d.temperature.isEmpty
    && d.precipitation.isEmpty && d.humidity.isEmpty && d.albedo.isEmpty
    && d.freshwater_flux.isEmpty && d.ice_mass.isEmpty && d.hazards.isEmpty
    && d.causes.isEmpty && d.diag_energy.isNone

end Diff

/-- Fold a list of scalar overrides into a scalar list, the shape of the
per-field loops in `diff.rs::Diff::merge`. -/
def mergeScalars (base : List ScalarValue) (incoming : List ScalarValue) :
    List ScalarValue :=
  incoming.foldl (fun acc s => set_scalar_value acc s.region s.value) base

/-- Fold a list of biome overrides into a biome list (`merge`'s biome loop). -/
def mergeBiomes (base incoming : List BiomeChange) : List BiomeChange :=
  incoming.foldl (fun acc c => set_biome_value acc c.region c.biome) base

/-- Fold a list of resource deltas into a delta list (`merge`'s water/soil
loops). -/
def mergeDeltas (base incoming : List ResourceDelta) : List ResourceDelta :=
  incoming.foldl (fun acc e => insert_delta acc e.region e.delta) base

/-- Fold a list of hazard events into a hazard list (`merge`'s hazard loop). -/
def mergeHazards (base incoming : List HazardEvent) : List HazardEvent :=
  incoming.foldl (fun acc h => record_hazard_list acc h.region h.drought h.flood) base

/-- Fold a list of causes into a cause list (`merge`'s cause loop). -/
def mergeCauses (base incoming : List Entry) : List Entry :=
  incoming.foldl (fun acc c => record_cause_list acc c) base

/-- Merge another diff into this one, translated loop-for-loop from
`diff.rs::Diff::merge`. -/
def Diff.merge (d : Diff) (other : Diff) : Diff :=
  { biome := mergeBiomes d.biome other.biome
    water := mergeDeltas d.water other.water
    soil := mergeDeltas d.soil other.soil
    insolation := mergeScalars d.insolation other.insolation
    tide_envelope := mergeScalars d.tide_envelope other.tide_envelope
    elevation := mergeScalars d.elevation other.elevation
    temperature := mergeScalars d.temperature other.temperature
    precipitation := mergeScalars d.precipitation other.precipitation
    humidity := mergeScalars d.humidity other.humidity
    albedo := mergeScalars d.albedo other.albedo
    freshwater_flux := mergeScalars d.freshwater_flux other.freshwater_flux
    ice_mass := mergeScalars d.ice_mass other.ice_mass
    hazards := mergeHazards d.hazards other.hazards
    causes := mergeCauses d.causes other.causes
    diag_energy :=
      match other.diag_energy with
      | some diag => some diag
      | none => d.diag_energy }


/-- Strict sortedness by a natural-number key: the invariant `diff.rs`
maintains for every region-keyed list. -/
def sortedByKey (keyOf : α → Nat) (l : List α) : Prop :=
  l.Pairwise (fun a b => keyOf a < keyOf b)

instance (keyOf : α → Nat) (l : List α) : Decidable (sortedByKey keyOf l) := by
  unfold sortedByKey
  infer_instance

/-- First entry with the given key, the reading model for region-keyed lists. -/
def lookupByKey (keyOf : α → Nat) (l : List α) (r : Nat) : Option α :=
  l.find? (fun e => keyOf e == r)

theorem lookupByKey_eq_none {keyOf : α → Nat} {l : List α} {r : Nat}
    (h : ∀ e ∈ l, keyOf e ≠ r) : lookupByKey keyOf l r = none := by
  induction l with
  | nil => rfl
  | cons x xs ih =>
    unfold lookupByKey
    rw [List.find?]
    rw [show (keyOf x == r) = false by simpa using h x (by simp)]
    exact ih (fun e he => h e (by simp [he]))

theorem mem_upsertByKey {keyOf : α → Nat} {l : List α} {x y : α}
    (h : y ∈ upsertByKey keyOf l x) : y = x ∨ y ∈ l := by
  induction l with
  | nil => simpa [upsertByKey] using h
  | cons e rest ih =>
    unfold upsertByKey at h
    split at h
    · rcases List.mem_cons.mp h with h' | h'
      · exact Or.inr (by simp [h'])
      · rcases ih h' with h'' | h''
        · exact Or.inl h''
        · exact Or.inr (by simp [h''])
    · split at h
      · rcases List.mem_cons.mp h with h' | h'
        · exact Or.inl h'
        · exact Or.inr (by simp [h'])
      · rcases List.mem_cons.mp h with h' | h'
        · exact Or.inl h'
        · exact Or.inr (by simpa using h')

theorem upsertByKey_sorted {keyOf : α → Nat} {l : List α} {x : α}
    (hs : sortedByKey keyOf l) : sortedByKey keyOf (upsertByKey keyOf l x) := by
  induction l with
  | nil => simp [upsertByKey, sortedByKey]
  | cons e rest ih =>
    cases hs with
    | cons hhead htail =>
      unfold upsertByKey
      by_cases h1 : keyOf e < keyOf x
      · rw [if_pos h1]
        refine List.Pairwise.cons ?_ (ih htail)
        intro y hy
        rcases mem_upsertByKey hy with rfl | hy'
        · exact h1
        · exact hhead y hy'
      · rw [if_neg h1]
        by_cases h2 : keyOf e = keyOf x
        · rw [if_pos h2]
          refine List.Pairwise.cons ?_ htail
          intro y hy
          have := hhead y hy
          omega
        · rw [if_neg h2]
          refine List.Pairwise.cons ?_ (List.Pairwise.cons hhead htail)
          intro y hy
          rcases List.mem_cons.mp hy with rfl | hy'
          · omega
          · have := hhead y hy'
            omega

theorem upsertByKey_lookup {keyOf : α → Nat} (l : List α) (x : α) (r : Nat) :
    lookupByKey keyOf (upsertByKey keyOf l x) r =
      if r = keyOf x then some x else lookupByKey keyOf l r := by
  induction l with
  | nil =>
    unfold upsertByKey lookupByKey
    by_cases h : r = keyOf x
    · rw [if_pos h]
      simp only [List.find?]
      rw [show (keyOf x == r) = true by simpa using h.symm]
    · rw [if_neg h]
      simp only [List.find?]
      rw [show (keyOf x == r) = false by simpa using fun hh => h hh.symm]
  | cons e rest ih =>
    unfold upsertByKey
    by_cases h1 : keyOf e < keyOf x
    · rw [if_pos h1]
      unfold lookupByKey at ih ⊢
      rw [List.find?, List.find?]
      by_cases he : keyOf e = r
      · have hrx : ¬ r = keyOf x := by omega
        rw [show (keyOf e == r) = true by simpa using he]
        rw [if_neg hrx]
      · rw [show (keyOf e == r) = false by simpa using he]
        exact ih
    · rw [if_neg h1]
      by_cases h2 : keyOf e = keyOf x
      · rw [if_pos h2]
        unfold lookupByKey
        rw [List.find?, List.find?]
        by_cases hr : r = keyOf x
        · rw [if_pos hr]
          rw [show (keyOf x == r) = true by simpa using hr.symm]
        · rw [if_neg hr]
          rw [show (keyOf x == r) = false by simpa using fun h => hr h.symm]
          rw [show (keyOf e == r) = false by simpa using fun h => hr (by omega)]
      · rw [if_neg h2]
        unfold lookupByKey
        rw [List.find?]
        by_cases hr : r = keyOf x
        · rw [if_pos hr]
          rw [show (keyOf x == r) = true by simpa using hr.symm]
        · rw [if_neg hr]
          rw [show (keyOf x == r) = false by simpa using fun h => hr h.symm]

/-- Last-writer-wins reading of a fold of upserts: entries of the incoming
sorted list override entries of the base list. -/
theorem foldl_upsertByKey_lookup {keyOf : α → Nat} :
    ∀ (l2 l1 : List α), sortedByKey keyOf l2 → ∀ r,
      lookupByKey keyOf (l2.foldl (upsertByKey keyOf) l1) r =
        (lookupByKey keyOf l2 r).or (lookupByKey keyOf l1 r) := by
  intro l2
  induction l2 with
  | nil => intro l1 _ r; simp [lookupByKey, List.find?]
  | cons x xs ih =>
    intro l1 hs r
    cases hs with
    | cons hhead htail =>
      rw [List.foldl_cons, ih _ htail r]
      rw [upsertByKey_lookup]
      unfold lookupByKey
      rw [List.find?]
      by_cases hr : r = keyOf x
      · rw [if_pos hr]
        rw [show (keyOf x == r) = true by simpa using hr.symm]
        rw [show List.find? (fun e => keyOf e == r) xs = none from
          lookupByKey_eq_none (fun e he => by have := hhead e he; omega)]
        simp
      · rw [if_neg hr]
        rw [show (keyOf x == r) = false by simpa using fun h => hr h.symm]



/-- Accumulated delta read for a region (zero when absent). -/
def deltaVal (l : List ResourceDelta) (r : Nat) : Int :=
  ((lookupByKey ResourceDelta.region l r).map ResourceDelta.delta).getD 0

theorem mem_insert_delta {l : List ResourceDelta} {r : Nat} {δ : Int} {y : ResourceDelta}
    (h : y ∈ insert_delta l r δ) : y.region = r ∨ y ∈ l := by
  induction l with
  | nil =>
    simp only [insert_delta, List.mem_singleton] at h
    exact Or.inl (by rw [h])
  | cons e rest ih =>
    unfold insert_delta at h
    split at h
    · rcases List.mem_cons.mp h with h' | h'
      · exact Or.inr (by simp [h'])
      · rcases ih h' with h'' | h''
        · exact Or.inl h''
        · exact Or.inr (by simp [h''])
    · split at h
      · split at h
        · exact Or.inr (by simp [h])
        · rcases List.mem_cons.mp h with h' | h'
          · exact Or.inl (by rw [h'])
          · exact Or.inr (by simp [h'])
      · rcases List.mem_cons.mp h with h' | h'
        · exact Or.inl (by rw [h'])
        · exact Or.inr (by simpa using h')

theorem insert_delta_sorted {l : List ResourceDelta} {r : Nat} {δ : Int}
    (hs : sortedByKey ResourceDelta.region l) :
    sortedByKey ResourceDelta.region (insert_delta l r δ) := by
  induction l with
  | nil => simp [insert_delta, sortedByKey]
  | cons e rest ih =>
    cases hs with
    | cons hhead htail =>
      unfold insert_delta
      by_cases h1 : e.region < r
      · rw [if_pos h1]
        refine List.Pairwise.cons ?_ (ih htail)
        intro y hy
        rcases mem_insert_delta hy with h' | h'
        · rw [h']; exact h1
        · exact hhead y h'
      · rw [if_neg h1]
        by_cases h2 : e.region = r
        · rw [if_pos h2]
          split
          · exact htail
          · exact List.Pairwise.cons (fun y hy => h2 ▸ hhead y hy) htail
        · rw [if_neg h2]
          refine List.Pairwise.cons ?_ (List.Pairwise.cons hhead htail)
          intro y hy
          show r < y.region
          rcases List.mem_cons.mp hy with rfl | hy'
          · omega
          · have := hhead y hy'
            omega

theorem insert_delta_deltaVal {l : List ResourceDelta} (hs : sortedByKey ResourceDelta.region l)
    (r' : Nat) (δ : Int) (r : Nat) :
    deltaVal (insert_delta l r' δ) r = deltaVal l r + (if r = r' then δ else 0) := by
  induction l with
  | nil =>
    unfold insert_delta deltaVal lookupByKey
    simp only [List.find?]
    by_cases h : r = r'
    · rw [show (ResourceDelta.region ⟨r', δ⟩ == r) = true by simpa using h.symm]
      simp [h]
    · rw [show (ResourceDelta.region ⟨r', δ⟩ == r) = false by
        simpa using fun hh => h hh.symm]
      simp [h]
  | cons e rest ih =>
    cases hs with
    | cons hhead htail =>
      unfold insert_delta
      by_cases h1 : e.region < r'
      · rw [if_pos h1]
        unfold deltaVal lookupByKey
        simp only [List.find?]
        by_cases he : e.region = r
        · rw [show (e.region == r) = true by simpa using he]
          have : ¬ r = r' := by omega
          simp [this]
        · rw [show (e.region == r) = false by simpa using he]
          exact ih htail
      · rw [if_neg h1]
        by_cases h2 : e.region = r'
        · rw [if_pos h2]
          have hrest : ∀ y ∈ rest, y.region ≠ r' := by
            intro y hy
            have := hhead y hy
            omega
          split
          · -- accumulated delta is zero: entry removed
            unfold deltaVal lookupByKey
            simp only [List.find?]
            by_cases hr : r = r'
            · rw [show List.find? (fun x => x.region == r) rest = none from
                lookupByKey_eq_none (fun y hy => by have := hrest y hy; omega)]
              rw [show (e.region == r) = true by simp [h2, hr]]
              simp only [Option.map_some', Option.map_none', Option.getD_some,
                Option.getD_none, if_pos hr]
              omega
            · rw [show (e.region == r) = false by
                simp only [beq_eq_false_iff_ne, ne_eq]; omega]
              simp [hr]
          · -- accumulated delta nonzero: entry replaced
            unfold deltaVal lookupByKey
            simp only [List.find?]
            by_cases hr : r = r'
            · rw [show (ResourceDelta.region ⟨r', e.delta + δ⟩ == r) = true by
                simpa using hr.symm]
              rw [show (e.region == r) = true by simp [h2, hr]]
              simp only [Option.map_some', Option.getD_some, if_pos hr]
            · rw [show (ResourceDelta.region ⟨r', e.delta + δ⟩ == r) = false by
                simpa using fun hh => hr hh.symm]
              rw [show (e.region == r) = false by
                simp only [beq_eq_false_iff_ne, ne_eq]; omega]
              simp [hr]
        · rw [if_neg h2]
          unfold deltaVal lookupByKey
          simp only [List.find?]
          by_cases hr : r = r'
          · rw [show (ResourceDelta.region ⟨r', δ⟩ == r) = true by simpa using hr.symm]
            rw [show (e.region == r) = false by
              simp only [beq_eq_false_iff_ne, ne_eq]; omega]
            rw [show List.find? (fun x => x.region == r) rest = none from
              lookupByKey_eq_none (fun y hy => by have := hhead y hy; omega)]
            simp [hr]
          · rw [show (ResourceDelta.region ⟨r', δ⟩ == r) = false by
              simpa using fun hh => hr hh.symm]
            simp only [List.find?]
            simp [hr]

theorem insert_delta_zeroFree {l : List ResourceDelta} {r : Nat} {δ : Int}
    (h : ∀ e ∈ l, e.delta ≠ 0) (hδ : δ ≠ 0) :
    ∀ e ∈ insert_delta l r δ, e.delta ≠ 0 := by
  induction l with
  | nil =>
    intro e he
    simp only [insert_delta, List.mem_singleton] at he
    rw [he]
    exact hδ
  | cons x rest ih =>
    intro e he
    unfold insert_delta at he
    split at he
    · rcases List.mem_cons.mp he with h' | h'
      · exact h _ (by simp [h'])
      · exact ih (fun y hy => h y (by simp [hy])) _ h'
    · split at he
      · split at he
        · exact h _ (by simp [he])
        · rcases List.mem_cons.mp he with h' | h'
          · rw [h']
            assumption
          · exact h _ (by simp [h'])
      · rcases List.mem_cons.mp he with h' | h'
        · rw [h']
          exact hδ
        · exact h _ (by simpa using h')

theorem wf_lookup_isSome_iff {l : List ResourceDelta} (r : Nat)
    (hz : ∀ e ∈ l, e.delta ≠ 0) :
    (lookupByKey ResourceDelta.region l r).isSome ↔ deltaVal l r ≠ 0 := by
  unfold deltaVal
  cases hl : lookupByKey ResourceDelta.region l r with
  | none => simp
  | some e =>
    have hmem : e ∈ l := List.mem_of_find?_eq_some hl
    simp [hz e hmem]

theorem mergeDeltas_sorted {l2 : List ResourceDelta} :
    ∀ {l1 : List ResourceDelta}, sortedByKey ResourceDelta.region l1 →
      sortedByKey ResourceDelta.region (mergeDeltas l1 l2) := by
  induction l2 with
  | nil => intro l1 h; exact h
  | cons x xs ih =>
    intro l1 h1
    unfold mergeDeltas at ih ⊢
    rw [List.foldl_cons]
    exact ih (insert_delta_sorted h1)

theorem mergeDeltas_zeroFree {l2 : List ResourceDelta} :
    ∀ {l1 : List ResourceDelta}, sortedByKey ResourceDelta.region l1 →
      (∀ e ∈ l1, e.delta ≠ 0) → (∀ e ∈ l2, e.delta ≠ 0) →
      ∀ e ∈ mergeDeltas l1 l2, e.delta ≠ 0 := by
  induction l2 with
  | nil => intro l1 _ h1 _ e he; exact h1 e he
  | cons x xs ih =>
    intro l1 hs h1 h2 e he
    unfold mergeDeltas at ih he
    rw [List.foldl_cons] at he
    exact ih (insert_delta_sorted hs)
      (insert_delta_zeroFree h1 (h2 x (by simp))) (fun y hy => h2 y (by simp [hy])) e he

theorem mergeDeltas_deltaVal {l2 : List ResourceDelta} :
    ∀ {l1 : List ResourceDelta}, sortedByKey ResourceDelta.region l1 →
      sortedByKey ResourceDelta.region l2 → ∀ r,
      deltaVal (mergeDeltas l1 l2) r = deltaVal l1 r + deltaVal l2 r := by
  induction l2 with
  | nil => intro l1 _ _ r; simp [mergeDeltas, deltaVal, lookupByKey, List.find?]
  | cons x xs ih =>
    intro l1 hs1 hs2 r
    cases hs2 with
    | cons hhead htail =>
      unfold mergeDeltas at ih ⊢
      rw [List.foldl_cons]
      rw [ih (insert_delta_sorted hs1) htail r]
      rw [insert_delta_deltaVal hs1]
      unfold deltaVal lookupByKey
      simp only [List.find?]
      by_cases hr : r = x.region
      · rw [show (x.region == r) = true by simpa using hr.symm]
        rw [show List.find? (fun e => e.region == r) xs = none from
          lookupByKey_eq_none (fun y hy => by have := hhead y hy; omega)]
        simp [hr]
      · rw [show (x.region == r) = false by simpa using fun hh => hr hh.symm]
        simp [hr]

theorem record_cause_list_perm (l : List Entry) (c : Entry) :
    (record_cause_list l c).Perm (c :: l) := by
  induction l with
  | nil => simp [record_cause_list]
  | cons e rest ih =>
    unfold record_cause_list
    split
    · exact (ih.cons e).trans (List.Perm.swap c e rest)
    · exact List.Perm.refl _

theorem mem_record_cause_list {l : List Entry} {c y : Entry}
    (h : y ∈ record_cause_list l c) : y = c ∨ y ∈ l := by
  have := (record_cause_list_perm l c).mem_iff.mp h
  simpa using this

theorem record_cause_list_sorted {l : List Entry} {c : Entry}
    (hs : l.Pairwise causeLe) : (record_cause_list l c).Pairwise causeLe := by
  induction l with
  | nil => simp [record_cause_list]
  | cons e rest ih =>
    cases hs with
    | cons hhead htail =>
      unfold record_cause_list
      split
      · refine List.Pairwise.cons ?_ (ih htail)
        intro y hy
        rcases mem_record_cause_list hy with rfl | hy'
        · assumption
        · exact hhead y hy'
      · refine List.Pairwise.cons ?_ (List.Pairwise.cons hhead htail)
        intro y hy
        have hce : causeLe c e := by
          rcases causeLe_total c e with h' | h'
          · exact h'
          · exact absurd h' (by assumption)
        rcases List.mem_cons.mp hy with rfl | hy'
        · exact hce
        · exact causeLe_trans hce (hhead y hy')

theorem record_cause_list_eq_insert_after_le_run (l : List Entry) (c : Entry) :
    record_cause_list l c =
      l.takeWhile (fun e => decide (causeLe e c)) ++
        c :: l.dropWhile (fun e => decide (causeLe e c)) := by
  induction l with
  | nil => simp [record_cause_list]
  | cons e rest ih =>
    unfold record_cause_list
    by_cases h : causeLe e c
    · rw [if_pos h]
      rw [List.takeWhile_cons, List.dropWhile_cons]
      rw [show (decide (causeLe e c)) = true by simpa using h]
      simp only [if_pos rfl]
      rw [ih]
      rfl
    · rw [if_neg h]
      rw [List.takeWhile_cons, List.dropWhile_cons]
      rw [show (decide (causeLe e c)) = false by simpa using h]
      simp

theorem mergeCauses_perm (l2 : List Entry) :
    ∀ l1, (mergeCauses l1 l2).Perm (l1 ++ l2) := by
  induction l2 with
  | nil => intro l1; simp [mergeCauses]
  | cons x xs ih =>
    intro l1
    unfold mergeCauses at ih ⊢
    rw [List.foldl_cons]
    refine (ih _).trans ?_
    have h1 : (record_cause_list l1 x ++ xs).Perm ((x :: l1) ++ xs) :=
      (record_cause_list_perm l1 x).append_right xs
    have h2 : ((x :: l1) ++ xs).Perm (l1 ++ x :: xs) := by
      rw [List.cons_append]
      exact List.perm_middle.symm
    exact h1.trans h2

theorem mergeCauses_sorted (l2 : List Entry) :
    ∀ {l1 : List Entry}, l1.Pairwise causeLe → (mergeCauses l1 l2).Pairwise causeLe := by
  induction l2 with
  | nil => intro l1 h; exact h
  | cons x xs ih =>
    intro l1 h1
    unfold mergeCauses at ih ⊢
    rw [List.foldl_cons]
    exact ih (record_cause_list_sorted h1)

theorem foldl_upsertByKey_sorted {keyOf : α → Nat} (l2 : List α) :
    ∀ {l1 : List α}, sortedByKey keyOf l1 →
      sortedByKey keyOf (l2.foldl (upsertByKey keyOf) l1) := by
  induction l2 with
  | nil => intro l1 h; exact h
  | cons x xs ih =>
    intro l1 h1
    rw [List.foldl_cons]
    exact ih (upsertByKey_sorted h1)

theorem option_map_or (f : α → β) (a b : Option α) :
    (a.or b).map f = (a.map f).or (b.map f) := by
  cases a <;> cases b <;> rfl

/-- Biome override read for a region. -/
def biome_lookup (l : List BiomeChange) (r : Nat) : Option Int :=
  (lookupByKey BiomeChange.region l r).map BiomeChange.biome

/-- Scalar override read for a region. -/
def scalar_lookup (l : List ScalarValue) (r : Nat) : Option Int :=
  (lookupByKey ScalarValue.region l r).map ScalarValue.value

/-- Hazard pair read for a region. -/
def hazard_lookup (l : List HazardEvent) (r : Nat) : Option (Nat × Nat) :=
  (lookupByKey HazardEvent.region l r).map (fun h => (h.drought, h.flood))

theorem mergeScalars_lookup {l1 l2 : List ScalarValue}
    (hs2 : sortedByKey ScalarValue.region l2) (r : Nat) :
    scalar_lookup (mergeScalars l1 l2) r =
      (scalar_lookup l2 r).or (scalar_lookup l1 r) := by
  unfold scalar_lookup mergeScalars
  rw [show (fun (acc : List ScalarValue) (s : ScalarValue) =>
      set_scalar_value acc s.region s.value) = upsertByKey ScalarValue.region from ?_]
  · rw [foldl_upsertByKey_lookup l2 l1 hs2 r, option_map_or]
  · funext acc s
    show upsertByKey ScalarValue.region acc ⟨s.region, s.value⟩ = _
    rfl

theorem mergeBiomes_lookup {l1 l2 : List BiomeChange}
    (hs2 : sortedByKey BiomeChange.region l2) (r : Nat) :
    biome_lookup (mergeBiomes l1 l2) r =
      (biome_lookup l2 r).or (biome_lookup l1 r) := by
  unfold biome_lookup mergeBiomes
  rw [show (fun (acc : List BiomeChange) (c : BiomeChange) =>
      set_biome_value acc c.region c.biome) = upsertByKey BiomeChange.region from ?_]
  · rw [foldl_upsertByKey_lookup l2 l1 hs2 r, option_map_or]
  · funext acc c
    show upsertByKey BiomeChange.region acc ⟨c.region, c.biome⟩ = _
    rfl

theorem mergeHazards_lookup {l1 l2 : List HazardEvent}
    (hs2 : sortedByKey HazardEvent.region l2) (r : Nat) :
    hazard_lookup (mergeHazards l1 l2) r =
      (hazard_lookup l2 r).or (hazard_lookup l1 r) := by
  unfold hazard_lookup mergeHazards
  rw [show (fun (acc : List HazardEvent) (h : HazardEvent) =>
      record_hazard_list acc h.region h.drought h.flood) = upsertByKey HazardEvent.region from ?_]
  · rw [foldl_upsertByKey_lookup l2 l1 hs2 r, option_map_or]
  · funext acc h
    show upsertByKey HazardEvent.region acc ⟨h.region, h.drought, h.flood⟩ = _
    rfl


/-- Well-formedness invariant of a diff, as documented in `diff.rs` (spec
§4.3): every region-keyed list is sorted by region with at most one entry per
region, water/soil deltas are nonzero (zero accumulations are deleted), and
the cause list is ordered by the entry comparator.  Every diff built through
the `record_*` API satisfies this. -/
def Diff.WellFormed (d : Diff) : Prop :=
  sortedByKey BiomeChange.region d.biome ∧
  sortedByKey ResourceDelta.region d.water ∧ (∀ e ∈ d.water, e.delta ≠ 0) ∧
  sortedByKey ResourceDelta.region d.soil ∧ (∀ e ∈ d.soil, e.delta ≠ 0) ∧
  sortedByKey ScalarValue.region d.insolation ∧
  sortedByKey ScalarValue.region d.tide_envelope ∧
  sortedByKey ScalarValue.region d.elevation ∧
  sortedByKey ScalarValue.region d.temperature ∧
  sortedByKey ScalarValue.region d.precipitation ∧
  sortedByKey ScalarValue.region d.humidity ∧
  sortedByKey ScalarValue.region d.albedo ∧
  sortedByKey ScalarValue.region d.freshwater_flux ∧
  sortedByKey ScalarValue.region d.ice_mass ∧
  sortedByKey HazardEvent.region d.hazards ∧
  d.causes.Pairwise causeLe

instance (d : Diff) : Decidable d.WellFormed := by
  unfold Diff.WellFormed
  infer_instance

/-- Replay of `other`'s recording operations onto `d`, one entry at a time,
in the order `merge` walks the fields.  Each `record_*` operation only
touches its own field, so the sequential replay is presented field by field:
water/soil entries go through the zero-delta guard of
`record_water_delta`/`record_soil_delta`; biome entries go through
`set_biome_value` (the store underlying `record_biome`); scalar, hazard and
cause entries go through `set_scalar_value`, `record_hazard` and
`record_cause`; a present `diag_energy` goes through `record_diag_energy`. -/
def Diff.replay (d : Diff) (other : Diff) : Diff :=
  { biome := mergeBiomes d.biome other.biome
    water := other.water.foldl
      (fun acc e => if e.delta = 0 then acc else insert_delta acc e.region e.delta) d.water
    soil := other.soil.foldl
      (fun acc e => if e.delta = 0 then acc else insert_delta acc e.region e.delta) d.soil
    insolation := mergeScalars d.insolation other.insolation
    tide_envelope := mergeScalars d.tide_envelope other.tide_envelope
    elevation := mergeScalars d.elevation other.elevation
    temperature := mergeScalars d.temperature other.temperature
    precipitation := mergeScalars d.precipitation other.precipitation
    humidity := mergeScalars d.humidity other.humidity
    albedo := mergeScalars d.albedo other.albedo
    freshwater_flux := mergeScalars d.freshwater_flux other.freshwater_flux
    ice_mass := mergeScalars d.ice_mass other.ice_mass
    hazards := mergeHazards d.hazards other.hazards
    causes := mergeCauses d.causes other.causes
    diag_energy :=
      match other.diag_energy with
      | some diag => some diag
      | none => d.diag_energy }

theorem foldl_guarded_insert_delta {l2 : List ResourceDelta}
    (hz : ∀ e ∈ l2, e.delta ≠ 0) (l1 : List ResourceDelta) :
    l2.foldl (fun acc e => if e.delta = 0 then acc else insert_delta acc e.region e.delta) l1 =
      mergeDeltas l1 l2 := by
  induction l2 generalizing l1 with
  | nil => rfl
  | cons x xs ih =>
    unfold mergeDeltas
    rw [List.foldl_cons, List.foldl_cons]
    rw [if_neg (hz x (by simp))]
    exact ih (fun e he => hz e (by simp [he])) _

theorem foldl_record_cause_sorted (cs : List Entry) :
    ∀ {d : Diff}, d.causes.Pairwise causeLe →
      ((cs.foldl Diff.record_cause d).causes).Pairwise causeLe := by
  induction cs with
  | nil => intro d h; exact h
  | cons c rest ih =>
    intro d h
    rw [List.foldl_cons]
    exact ih (record_cause_list_sorted h)

/-- C5: after any sequence of `record_cause` calls starting from the empty
diff the cause list is sorted by the `(target, code, note)` comparator, and
each insertion lands right after the run of entries comparing `≤` to the new
cause — in particular after the entire run of entries comparing equal to it
(stable insertion). -/
theorem claim_C5_record_cause_order :
    (∀ cs : List Entry, ((cs.foldl Diff.record_cause Diff.empty).causes).Pairwise causeLe) ∧
    (∀ (d : Diff) (c : Entry),
      (d.record_cause c).causes =
        d.causes.takeWhile (fun e => decide (causeLe e c)) ++
          c :: d.causes.dropWhile (fun e => decide (causeLe e c))) := by
  constructor
  · intro cs
    exact foldl_record_cause_sorted cs (by simp [Diff.empty])
  · intro d c
    exact record_cause_list_eq_insert_after_le_run d.causes c

/-- C4: merging a well-formed diff is the same as replaying its recording
operations in sequence, and the merged result reads back as the claim
describes: scalar overrides are last-writer-wins, water/soil deltas add with
zero accumulations absent, hazard entries replace, causes are the re-inserted
union in comparator order, and a present `diag_energy` overwrites. -/
theorem claim_C4_merge_replays (d1 d2 : Diff)
    (h1 : d1.WellFormed) (h2 : d2.WellFormed) :
    d1.merge d2 = d1.replay d2 ∧
    (∀ r, biome_lookup (d1.merge d2).biome r =
      (biome_lookup d2.biome r).or (biome_lookup d1.biome r)) ∧
    (∀ r, scalar_lookup (d1.merge d2).insolation r =
      (scalar_lookup d2.insolation r).or (scalar_lookup d1.insolation r)) ∧
    (∀ r, scalar_lookup (d1.merge d2).tide_envelope r =
      (scalar_lookup d2.tide_envelope r).or (scalar_lookup d1.tide_envelope r)) ∧
    (∀ r, scalar_lookup (d1.merge d2).elevation r =
      (scalar_lookup d2.elevation r).or (scalar_lookup d1.elevation r)) ∧
    (∀ r, scalar_lookup (d1.merge d2).temperature r =
      (scalar_lookup d2.temperature r).or (scalar_lookup d1.temperature r)) ∧
    (∀ r, scalar_lookup (d1.merge d2).precipitation r =
      (scalar_lookup d2.precipitation r).or (scalar_lookup d1.precipitation r)) ∧
    (∀ r, scalar_lookup (d1.merge d2).humidity r =
      (scalar_lookup d2.humidity r).or (scalar_lookup d1.humidity r)) ∧
    (∀ r, scalar_lookup (d1.merge d2).albedo r =
      (scalar_lookup d2.albedo r).or (scalar_lookup d1.albedo r)) ∧
    (∀ r, scalar_lookup (d1.merge d2).freshwater_flux r =
      (scalar_lookup d2.freshwater_flux r).or (scalar_lookup d1.freshwater_flux r)) ∧
    (∀ r, scalar_lookup (d1.merge d2).ice_mass r =
      (scalar_lookup d2.ice_mass r).or (scalar_lookup d1.ice_mass r)) ∧
    (∀ r, deltaVal (d1.merge d2).water r = deltaVal d1.water r + deltaVal d2.water r ∧
      ((lookupByKey ResourceDelta.region (d1.merge d2).water r).isSome ↔
        deltaVal d1.water r + deltaVal d2.water r ≠ 0)) ∧
    (∀ r, deltaVal (d1.merge d2).soil r = deltaVal d1.soil r + deltaVal d2.soil r ∧
      ((lookupByKey ResourceDelta.region (d1.merge d2).soil r).isSome ↔
        deltaVal d1.soil r + deltaVal d2.soil r ≠ 0)) ∧
    (∀ r, hazard_lookup (d1.merge d2).hazards r =
      (hazard_lookup d2.hazards r).or (hazard_lookup d1.hazards r)) ∧
    ((d1.merge d2).causes.Perm (d1.causes ++ d2.causes) ∧
      (d1.merge d2).causes.Pairwise causeLe) ∧
    (d1.merge d2).diag_energy = d2.diag_energy.or d1.diag_energy := by
  obtain ⟨hb1, hw1, hwz1, hs1, hsz1, hi1, ht1, he1, htm1, hp1, hh1, ha1, hf1, hic1, hz1, hc1⟩ := h1
  obtain ⟨hb2, hw2, hwz2, hs2, hsz2, hi2, ht2, he2, htm2, hp2, hh2, ha2, hf2, hic2, hz2, hc2⟩ := h2
  refine ⟨?_, ?_, ?_, ?_, ?_, ?_, ?_, ?_, ?_, ?_, ?_, ?_, ?_, ?_, ?_, ?_⟩
  · show Diff.merge d1 d2 = Diff.replay d1 d2
    unfold Diff.merge Diff.replay
    rw [foldl_guarded_insert_delta hwz2, foldl_guarded_insert_delta hsz2]
  · exact fun r => mergeBiomes_lookup hb2 r
  · exact fun r => mergeScalars_lookup hi2 r
  · exact fun r => mergeScalars_lookup ht2 r
  · exact fun r => mergeScalars_lookup he2 r
  · exact fun r => mergeScalars_lookup htm2 r
  · exact fun r => mergeScalars_lookup hp2 r
  · exact fun r => mergeScalars_lookup hh2 r
  · exact fun r => mergeScalars_lookup ha2 r
  · exact fun r => mergeScalars_lookup hf2 r
  · exact fun r => mergeScalars_lookup hic2 r
  · intro r
    have hv := mergeDeltas_deltaVal hw1 hw2 r
    refine ⟨hv, ?_⟩
    rw [← hv]
    exact wf_lookup_isSome_iff r (mergeDeltas_zeroFree hw1 hwz1 hwz2)
  · intro r
    have hv := mergeDeltas_deltaVal hs1 hs2 r
    refine ⟨hv, ?_⟩
    rw [← hv]
    exact wf_lookup_isSome_iff r (mergeDeltas_zeroFree hs1 hsz1 hsz2)
  · exact fun r => mergeHazards_lookup hz2 r
  · exact ⟨mergeCauses_perm d2.causes d1.causes, mergeCauses_sorted d2.causes hc1⟩
  · show (Diff.merge d1 d2).diag_energy = _
    unfold Diff.merge
    cases d2.diag_energy <;> rfl

/-- Concrete well-formed diff used to witness the merge claim. -/
def diffSampleA : Diff :=
  { water := [⟨0, 5⟩], insolation := [⟨1, 7⟩],
    causes := [⟨"region:0/water", .DroughtFlag, none⟩], diag_energy := some ⟨1, 2⟩ }

/-- Concrete well-formed diff used to witness the merge claim. -/
def diffSampleB : Diff :=
  { water := [⟨0, -5⟩], insolation := [⟨1, 9⟩], hazards := [⟨0, 1, 2⟩],
    causes := [⟨"region:0/water", .FloodFlag, none⟩] }

theorem claim_C4_witness :
    deltaVal (diffSampleA.merge diffSampleB).water 0 =
        deltaVal diffSampleA.water 0 + deltaVal diffSampleB.water 0 ∧
      ((lookupByKey ResourceDelta.region (diffSampleA.merge diffSampleB).water 0).isSome ↔
        deltaVal diffSampleA.water 0 + deltaVal diffSampleB.water 0 ≠ 0) ∧
      scalar_lookup (diffSampleA.merge diffSampleB).insolation 1 =
        (scalar_lookup diffSampleB.insolation 1).or (scalar_lookup diffSampleA.insolation 1) := by
  have h := claim_C4_merge_replays diffSampleA diffSampleB (by decide) (by decide)
  exact ⟨(h.2.2.2.2.2.2.2.2.2.2.2.1 0).1, (h.2.2.2.2.2.2.2.2.2.2.2.1 0).2, h.2.2.1 1⟩


theorem blend_hazard_eq_spec_model (p t : Nat) :
    blend_hazard p t = blend_hazard_spec p t := by
  unfold blend_hazard blend_hazard_spec clamp_hazard_meter clamp_u16 WATER_MAX
  by_cases h : p = t
  · subst h
    simp
  · simp only [if_neg h]
    by_cases hlt : (0 : Int) < (t : Int) - p
    · simp only [if_pos hlt]
      rw [Int.tdiv_eq_ediv (by omega) (by omega)]
      omega
    · have hneg : ((t : Int) - p) < 0 := by omega
      simp only [if_neg hlt, if_pos hneg]
      rw [Int.tdiv_eq_ediv (by omega) (by omega)]
      omega

theorem blend_hazard_reaches_zero (p : Nat) :
    ∃ n, (fun q => blend_hazard q 0)^[n] p = 0 := by
  induction p using Nat.strong_induction_on with
  | _ p ih =>
    by_cases hp : p = 0
    · exact ⟨0, by simp [hp]⟩
    · have hlt : blend_hazard p 0 < p := by
        unfold blend_hazard clamp_hazard_meter clamp_u16 WATER_MAX
        rw [if_neg hp]
        simp only
        rw [if_neg (show ¬ (0:Int) < ((0:Nat):Int) - (p:Int) by omega)]
        rw [Int.tdiv_eq_ediv (by omega) (by omega)]
        omega
      obtain ⟨n, hn⟩ := ih _ hlt
      exact ⟨n + 1, by simpa [Function.iterate_succ_apply] using hn⟩

/-- C7: `blend_hazard` computes the spec's round-away-from-zero half-step
clamped to `[0, 10000]`; iterating it toward target `0` from gauge `6000`
traces exactly `3000, 1500, 750, 375, 187, 93, 46, 23, 11, 5, 2, 1, 0`, and
from every starting gauge it reaches `0` in finitely many steps. -/
theorem claim_C7_blend_hazard :
    (∀ prev target, blend_hazard prev target = blend_hazard_spec prev target) ∧
    ((List.range 13).map (fun n => (fun q => blend_hazard q 0)^[n + 1] 6000) =
      [3000, 1500, 750, 375, 187, 93, 46, 23, 11, 5, 2, 1, 0]) ∧
    (∀ prev, ∃ n, (fun q => blend_hazard q 0)^[n] prev = 0) :=
  ⟨fun p t => blend_hazard_eq_spec_model p t, by decide,
    fun p => blend_hazard_reaches_zero p⟩

/-- Modelled from the spec: the closed cause-code set of spec §6 (the
`seasonal_shift`/`seasonality_variance` alias pair contributes both
spellings), kept separate from `code_label` so the two can be compared. -/
def spec_cause_code_set : List String :=
  ["latitude_belt", "orographic_lift", "seasonal_shift", "seasonality_variance",
   "hadley_cell", "hadley_drift", "monsoon_onset", "rain_shadow",
   "humidity_transport", "energy_balance_adjustment", "orogeny_belt",
   "volcanic_aerosol_pulse", "subsidence_deltas", "insolation_gradient",
   "obliquity_shift", "precession_phase", "solar_cycle_peak", "tide_neap",
   "tide_spring", "soil_fertility_low", "drought_flag", "flood_flag",
   "albedo_feedback", "glacier_mass_balance", "freshwater_pulse",
   "ice_mass_variation", "permafrost_thaw", "snowmelt_surge",
   "sea_level_contribution", "era_end", "stagnation_warning", "collapse_warning"]

/-- C8: the serialized cause-code set of `cause.rs` differs from the spec's
closed set: the spec codes `ice_mass_variation`, `permafrost_thaw`,
`snowmelt_surge` and `sea_level_contribution` have no `Code` variant (although
kernels in the crate construct them), while the declared variant `CmeEvent`
serializes to `cme_event`, which lies outside the spec's set. -/
theorem claim_C8_cause_code_set :
    ("ice_mass_variation" ∈ spec_cause_code_set ∧
      ∀ c : Code, code_label c ≠ "ice_mass_variation") ∧
    ("permafrost_thaw" ∈ spec_cause_code_set ∧
      ∀ c : Code, code_label c ≠ "permafrost_thaw") ∧
    ("snowmelt_surge" ∈ spec_cause_code_set ∧
      ∀ c : Code, code_label c ≠ "snowmelt_surge") ∧
    ("sea_level_contribution" ∈ spec_cause_code_set ∧
      ∀ c : Code, code_label c ≠ "sea_level_contribution") ∧
    (code_label Code.CmeEvent = "cme_event" ∧ "cme_event" ∉ spec_cause_code_set) := by
  refine ⟨⟨by decide, ?_⟩, ⟨by decide, ?_⟩, ⟨by decide, ?_⟩, ⟨by decide, ?_⟩, rfl, by decide⟩
    <;> (intro c; cases c <;> decide)


/-! ## Decimal rendering

`format!`-style decimal rendering of integers, used by `World::region_key`
and the frame serializer. -/

/-- Hexadecimal digit characters (decimal rendering uses the first ten). -/
def hexDigitChars : List Char :=
  (List.range 10).map (fun n => Char.ofNat (48 + n))
    ++ (List.range 6).map (fun n => Char.ofNat (97 + n))

/-- Digit character for a value below 16. -/
def digitChar (n : Nat) : Char :=
  hexDigitChars.getD n '0'

/-- Decimal digits of a natural number, least significant first. -/
def natDigitsRev (n : Nat) : List Char :=
  if h : n < 10 then [digitChar n]
  else digitChar (n % 10) :: natDigitsRev (n / 10)
decreasing_by exact Nat.div_lt_self (by omega) (by omega)

/-- Decimal rendering of a natural number (`format!` of an unsigned int). -/
def natDecimal (n : Nat) : String :=
  String.mk (natDigitsRev n).reverse

/-- Decimal rendering of an integer (`format!` of a signed int). -/
def intDecimal (i : Int) : String :=
  if i < 0 then String.mk ('-' :: (natDigitsRev i.natAbs).reverse)
  else natDecimal i.toNat

/-! ## World state (`src/world.rs`)

The `ClimateState` ring buffers `temperature_maxima` and
`precipitation_peaks` (serde-skipped `VecDeque`s) are untouched by every
code path embedded here apart from capacity growth, and are omitted. -/

/-- Hazard gauges for a region, `world.rs::Hazards` (`u16` fields). -/
structure Hazards where
  drought : Nat
  flood : Nat
  deriving DecidableEq, Repr

/-- Region level state, translated field-for-field from `world.rs::Region`.
`latitude_deg` is the `f64` latitude, carried for fidelity but unused by the
code paths embedded here. -/
structure Region where
  id : Nat
  x : Nat
  y : Nat
  elevation_m : Int
  latitude_deg : Float
  biome : Nat
  water : Nat
  soil : Nat
  temperature_tenths_c : Int
  precipitation_mm : Nat
  albedo_milli : Nat
  freshwater_flux_tenths_mm : Nat
  ice_mass_kilotons : Nat
  hazards : Hazards

/-- Slow-changing climate coordination state, from `world.rs::ClimateState`
(baseline in tenths as `i16` values, albedo/insolation snapshots as `i32`). -/
structure ClimateState where
  temperature_baseline_tenths : List Int
  last_albedo_milli : List Int
  last_insolation_tenths : List Int
  sea_level_equivalent_mm : Int

/-- Pad a list with zeros up to the requested length (`Vec::resize` with
default `0`, as used by `ensure_region_capacity`). -/
def padZeros (l : List Int) (n : Nat) : List Int :=
  l ++ List.replicate (n - l.length) 0

/-- Grow the climate vectors to the region count,
`world.rs::ClimateState::ensure_region_capacity`. -/
def ClimateState.ensure_region_capacity (c : ClimateState) (n : Nat) : ClimateState :=
  { c with
    temperature_baseline_tenths := padZeros c.temperature_baseline_tenths n
    last_albedo_milli := padZeros c.last_albedo_milli n
    last_insolation_tenths := padZeros c.last_insolation_tenths n }

/-- Global world state, from `world.rs::World`. -/
structure World where
  tick : Nat
  seed : Nat
  width : Nat
  height : Nat
  regions : List Region
  climate : ClimateState

/-- Region key used by all serialized maps, `world.rs::World::region_key`
(`format!` of `r:{index}` in decimal). -/
def World.region_key (index : Nat) : String :=
  "r:" ++ natDecimal index

/-! ## The committed diff shape used by `reduce.rs`, `io/frame.rs` and
`kernels/coupler.rs`

These files consume `crate::diff::Diff` with more fields than `diff.rs`
declares in this snapshot (`temperature_baseline`, `precip_extreme`,
`permafrost_active`, `melt_pulse`, `heatwave_idx`, `diag_climate`,
`diagnostics`); the extra fields are modelled from the spec's diff
description (§3: per-scalar sparse lists sorted by region, plus a
diagnostics name → integer mapping).  The structure is named `FullDiff` to
distinguish it from the `diff.rs` `Diff` above. -/
structure FullDiff where
  biome : List BiomeChange := []
  water : List ResourceDelta := []
  soil : List ResourceDelta := []
  insolation : List ScalarValue := []
  tide_envelope : List ScalarValue := []
  elevation : List ScalarValue := []
  temperature : List ScalarValue := []
  temperature_baseline : List ScalarValue := []
  precipitation : List ScalarValue := []
  precip_extreme : List ScalarValue := []
  humidity : List ScalarValue := []
  albedo : List ScalarValue := []
  permafrost_active : List ScalarValue := []
  freshwater_flux : List ScalarValue := []
  melt_pulse : List ScalarValue := []
  ice_mass : List ScalarValue := []
  heatwave_idx : List ScalarValue := []
  diag_climate : List ScalarValue := []
  hazards : List HazardEvent := []
  causes : List Entry := []
  diagnostics : List (String × Int) := []

namespace FullDiff

/-- Empty committed diff, `Diff::default()`. -/
def empty : FullDiff := {}

/-- Record a temperature-baseline override (the `record_temperature_baseline`
used by the coupler; same insert-or-overwrite store as the other scalars). -/
def record_temperature_baseline (d : FullDiff) (region_index : Nat) (value : Int) :
    FullDiff :=
  { d with temperature_baseline :=
      set_scalar_value d.temperature_baseline region_index value }

/-- Record an albedo override (`record_albedo` on the committed diff shape). -/
def record_albedo (d : FullDiff) (region_index : Nat) (value : Int) : FullDiff :=
  { d with albedo := set_scalar_value d.albedo region_index value }

/-- Ordered insert-or-overwrite into the diagnostics map, the model of
`BTreeMap::insert` keyed by the diagnostic name. -/
def upsertDiagnostic : List (String × Int) → String → Int → List (String × Int)
  | [], k, v => [(k, v)]
  | (k', v') :: rest, k, v =>
    match strCmp k' k with
    | .lt => (k', v') :: upsertDiagnostic rest k v
    | .eq => (k, v) :: rest
    | .gt => (k, v) :: (k', v') :: rest

/-- Record a named diagnostic (the coupler's `record_diagnostic`). -/
def record_diagnostic (d : FullDiff) (name : String) (value : Int) : FullDiff :=
  { d with diagnostics := upsertDiagnostic d.diagnostics name value }

/-- Record a cause entry (`record_cause` on the committed diff shape). -/
def record_cause (d : FullDiff) (cause : Entry) : FullDiff :=
  { d with causes := record_cause_list d.causes cause }

/-- Emptiness check over every field (`Diff::is_empty`). -/
def is_empty (d : FullDiff) : Bool :=
  d.biome.isEmpty && d.water.isEmpty && d.soil.isEmpty && d.insolation.isEmpty
    && d.tide_envelope.isEmpty && d.elevation.isEmpty && d.temperature.isEmpty
    && d.temperature_baseline.isEmpty && d.precipitation.isEmpty
    && d.precip_extreme.isEmpty && d.humidity.isEmpty && d.albedo.isEmpty
    && d.permafrost_active.isEmpty && d.freshwater_flux.isEmpty
    && d.melt_pulse.isEmpty && d.ice_mass.isEmpty && d.heatwave_idx.isEmpty
    && d.diag_climate.isEmpty && d.hazards.isEmpty && d.causes.isEmpty
    && d.diagnostics.isEmpty

/-- Merge on the committed diff shape: the `diff.rs::merge` loops extended
field-wise to the extra fields.  Modelled from the spec: scalar overrides
win last-writer semantics; deltas add; hazards replace; causes re-insert;
diagnostics overwrite per key. -/
def merge (d other : FullDiff) : FullDiff :=
  { biome := mergeBiomes d.biome other.biome
    water := mergeDeltas d.water other.water
    soil := mergeDeltas d.soil other.soil
    insolation := mergeScalars d.insolation other.insolation
    tide_envelope := mergeScalars d.tide_envelope other.tide_envelope
    elevation := mergeScalars d.elevation other.elevation
    temperature := mergeScalars d.temperature other.temperature
    temperature_baseline := mergeScalars d.temperature_baseline other.temperature_baseline
    precipitation := mergeScalars d.precipitation other.precipitation
    precip_extreme := mergeScalars d.precip_extreme other.precip_extreme
    humidity := mergeScalars d.humidity other.humidity
    albedo := mergeScalars d.albedo other.albedo
    permafrost_active := mergeScalars d.permafrost_active other.permafrost_active
    freshwater_flux := mergeScalars d.freshwater_flux other.freshwater_flux
    melt_pulse := mergeScalars d.melt_pulse other.melt_pulse
    ice_mass := mergeScalars d.ice_mass other.ice_mass
    heatwave_idx := mergeScalars d.heatwave_idx other.heatwave_idx
    diag_climate := mergeScalars d.diag_climate other.diag_climate
    hazards := mergeHazards d.hazards other.hazards
    causes := mergeCauses d.causes other.causes
    diagnostics :=
      other.diagnostics.foldl (fun acc kv => upsertDiagnostic acc kv.1 kv.2) d.diagnostics }

end FullDiff

/-! ## Reduce (`src/reduce.rs::apply`) -/

/-- Temperature clamp bounds of `reduce.rs` (`TEMP_MIN_TENTHS_C`,
`TEMP_MAX_TENTHS_C`). -/
def TEMP_MIN_TENTHS_C : Int := -500

/-- Upper temperature clamp bound of `reduce.rs`. -/
def TEMP_MAX_TENTHS_C : Int := 500

/-- Maximum precipitation committed by `reduce.rs` (`PRECIP_MAX_MM`). -/
def PRECIP_MAX_MM : Nat := 5000

/-- Replace the element at an index, leaving the list unchanged when the
index is out of range (`Vec::get_mut` returning `None`). -/
def modifyIdx : List α → Nat → (α → α) → List α
  | [], _, _ => []
  | x :: xs, 0, f => f x :: xs
  | x :: xs, n + 1, f => x :: modifyIdx xs n f

/-- Write one diff entry list into the region vector: each entry updates the
region it addresses through `write` (the body of one commit loop in
`reduce.rs::apply`). -/
def foldWrites (rs : List Region) (l : List α) (keyOf : α → Nat)
    (write : α → Region → Region) : List Region :=
  l.foldl (fun acc e => modifyIdx acc (keyOf e) (write e)) rs

/-- Write one diff entry list into a climate vector (`i32`/`i16` slots). -/
def foldSlotWrites (slots : List Int) (l : List ScalarValue)
    (write : ScalarValue → Int) : List Int :=
  l.foldl (fun acc v => modifyIdx acc v.region (fun _ => write v)) slots

/-- Stable sort by region, the model of `sort_by_key(|e| e.region)`. -/
def sortByRegion (keyOf : α → Nat) (l : List α) : List α :=
  List.insertionSort (fun a b => keyOf a ≤ keyOf b) l

/-- Biome commit: clamp to the `u8` range (`clamp_biome_index`). -/
def writeBiome (c : BiomeChange) (r : Region) : Region :=
  { r with biome := clamp_biome_index c.biome }

/-- Water commit: saturating delta against `WATER_MAX`. -/
def writeWater (e : ResourceDelta) (r : Region) : Region :=
  { r with water := commit_resource_delta r.water e.delta WATER_MAX }

/-- Soil commit: saturating delta against `SOIL_MAX`. -/
def writeSoil (e : ResourceDelta) (r : Region) : Region :=
  { r with soil := commit_resource_delta r.soil e.delta SOIL_MAX }

/-- Elevation commit: the raw recorded value, unclamped. -/
def writeElevation (v : ScalarValue) (r : Region) : Region :=
  { r with elevation_m := v.value }

/-- Temperature commit: clamp into `[-500, 500]` tenths. -/
def writeTemperature (v : ScalarValue) (r : Region) : Region :=
  { r with temperature_tenths_c := clamp_i16 v.value TEMP_MIN_TENTHS_C TEMP_MAX_TENTHS_C }

/-- Precipitation commit: clamp into `[0, 5000]`. -/
def writePrecipitation (v : ScalarValue) (r : Region) : Region :=
  { r with precipitation_mm := clamp_u16 v.value 0 PRECIP_MAX_MM }

/-- Albedo commit: clamp into `[0, 1000]`. -/
def writeAlbedo (v : ScalarValue) (r : Region) : Region :=
  { r with albedo_milli := clamp_u16 v.value 0 ALBEDO_MAX }

/-- Freshwater flux commit: clamp into `[0, 2000]`. -/
def writeFreshwater (v : ScalarValue) (r : Region) : Region :=
  { r with freshwater_flux_tenths_mm := clamp_u16 v.value 0 FRESHWATER_FLUX_MAX }

/-- Ice mass commit: floored at zero, then the exact `as u32` cast. -/
def writeIceMass (v : ScalarValue) (r : Region) : Region :=
  { r with ice_mass_kilotons := (max v.value 0).toNat }

/-- Hazard commit: both gauges clamped to `[0, 10000]`. -/
def writeHazard (h : HazardEvent) (r : Region) : Region :=
  { r with hazards := ⟨clamp_hazard_meter h.drought, clamp_hazard_meter h.flood⟩ }

/-- Commit an owned diff to the world, translated from `reduce.rs::apply`.
The climate vectors are grown first; every list is sorted by region (the
tide/humidity/extreme lists are sorted and then dropped by the Rust code
without touching the world, so their sorts are elided here); then the commit
loops run in the fixed source order — biome, insolation carry, water, soil,
elevation, temperature, temperature baseline, precipitation, albedo,
freshwater flux, ice mass, hazards.  Region writes and climate-slot writes
address disjoint state, so they are grouped without reordering effects. -/
def apply (w : World) (d : FullDiff) : World :=
  let climate := w.climate.ensure_region_capacity w.regions.length
  let rs := foldWrites w.regions (sortByRegion BiomeChange.region d.biome)
    BiomeChange.region writeBiome
  let ins := foldSlotWrites climate.last_insolation_tenths
    (sortByRegion ScalarValue.region d.insolation) (fun v => v.value)
  let climate := { climate with last_insolation_tenths := ins }
  let rs := foldWrites rs (sortByRegion ResourceDelta.region d.water)
    ResourceDelta.region writeWater
  let rs := foldWrites rs (sortByRegion ResourceDelta.region d.soil)
    ResourceDelta.region writeSoil
  let rs := foldWrites rs (sortByRegion ScalarValue.region d.elevation)
    ScalarValue.region writeElevation
  let rs := foldWrites rs (sortByRegion ScalarValue.region d.temperature)
    ScalarValue.region writeTemperature
  let tb := foldSlotWrites climate.temperature_baseline_tenths
    (sortByRegion ScalarValue.region d.temperature_baseline)
    (fun v => clamp_i16 v.value TEMP_MIN_TENTHS_C TEMP_MAX_TENTHS_C)
  let climate := { climate with temperature_baseline_tenths := tb }
  let rs := foldWrites rs (sortByRegion ScalarValue.region d.precipitation)
    ScalarValue.region writePrecipitation
  let rs := foldWrites rs (sortByRegion ScalarValue.region d.albedo)
    ScalarValue.region writeAlbedo
  let rs := foldWrites rs (sortByRegion ScalarValue.region d.freshwater_flux)
    ScalarValue.region writeFreshwater
  let rs := foldWrites rs (sortByRegion ScalarValue.region d.ice_mass)
    ScalarValue.region writeIceMass
  let rs := foldWrites rs (sortByRegion HazardEvent.region d.hazards)
    HazardEvent.region writeHazard
  { w with regions := rs, climate := climate }

theorem modifyIdx_get? (l : List α) (i : Nat) (f : α → α) (j : Nat) :
    (modifyIdx l i f).get? j = if j = i then (l.get? i).map f else l.get? j := by
  induction l generalizing i j with
  | nil => simp [modifyIdx]
  | cons x xs ih =>
    cases i with
    | zero =>
      cases j with
      | zero => simp [modifyIdx]
      | succ j => simp [modifyIdx]
    | succ i =>
      cases j with
      | zero => simp [modifyIdx]
      | succ j =>
        simp only [modifyIdx, List.get?]
        rw [ih i j]
        by_cases h : j = i
        · simp [h]
        · simp [h]

theorem foldWrites_proj_frame {keyOf : α → Nat} {write : α → Region → Region}
    {proj : Region → β} (hf : ∀ e r, proj (write e r) = proj r) :
    ∀ (l : List α) (rs : List Region) (j : Nat),
      ((foldWrites rs l keyOf write).get? j).map proj = (rs.get? j).map proj := by
  intro l
  induction l with
  | nil => intro rs j; rfl
  | cons e es ih =>
    intro rs j
    unfold foldWrites at ih ⊢
    rw [List.foldl_cons]
    rw [ih _ j]
    rw [modifyIdx_get?]
    by_cases h : j = keyOf e
    · subst h
      rw [if_pos rfl]
      cases hr : rs.get? (keyOf e) with
      | none => rfl
      | some r => simp [hf e r]
    · rw [if_neg h]

theorem foldWrites_proj_bound {keyOf : α → Nat} {write : α → Region → Region}
    {proj : Region → β} {P : β → Prop} :
    ∀ (l : List α), (∀ e ∈ l, ∀ r, P (proj (write e r))) →
      ∀ (rs : List Region) (j : Nat),
      ((foldWrites rs l keyOf write).get? j).map proj = (rs.get? j).map proj ∨
        ∃ b, ((foldWrites rs l keyOf write).get? j).map proj = some b ∧ P b := by
  intro l
  induction l with
  | nil => intro _ rs j; exact Or.inl rfl
  | cons e es ih =>
    intro hP rs j
    unfold foldWrites at ih ⊢
    rw [List.foldl_cons]
    rcases ih (fun x hx r => hP x (by simp [hx]) r) (modifyIdx rs (keyOf e) (write e)) j with
      h | ⟨b, hb, hPb⟩
    · rw [h, modifyIdx_get?]
      by_cases hj : j = keyOf e
      · subst hj
        rw [if_pos rfl]
        cases hr : rs.get? (keyOf e) with
        | none => exact Or.inl rfl
        | some r =>
          refine Or.inr ⟨proj (write e r), rfl, hP e (by simp) r⟩
      · exact Or.inl (by rw [if_neg hj])
    · exact Or.inr ⟨b, hb, hPb⟩

/-- Bounds guaranteed for a committed region relative to its pre-commit
state: every meter the diff wrote is inside its clamp range (elevation and
ice mass are characterized by the given predicates), every untouched meter
is unchanged. -/
def MeterOk (ElevP : Int → Prop) (IceP : Nat → Prop) (r₀ r : Region) : Prop :=
  (r.water = r₀.water ∨ r.water ≤ WATER_MAX) ∧
  (r.soil = r₀.soil ∨ r.soil ≤ SOIL_MAX) ∧
  (r.precipitation_mm = r₀.precipitation_mm ∨ r.precipitation_mm ≤ PRECIP_MAX_MM) ∧
  (r.albedo_milli = r₀.albedo_milli ∨ r.albedo_milli ≤ ALBEDO_MAX) ∧
  (r.freshwater_flux_tenths_mm = r₀.freshwater_flux_tenths_mm ∨
    r.freshwater_flux_tenths_mm ≤ FRESHWATER_FLUX_MAX) ∧
  (r.temperature_tenths_c = r₀.temperature_tenths_c ∨
    (TEMP_MIN_TENTHS_C ≤ r.temperature_tenths_c ∧
      r.temperature_tenths_c ≤ TEMP_MAX_TENTHS_C)) ∧
  (r.hazards.drought = r₀.hazards.drought ∨ r.hazards.drought ≤ WATER_MAX) ∧
  (r.hazards.flood = r₀.hazards.flood ∨ r.hazards.flood ≤ WATER_MAX) ∧
  (r.biome = r₀.biome ∨ r.biome ≤ 255) ∧
  (r.elevation_m = r₀.elevation_m ∨ ElevP r.elevation_m) ∧
  (r.ice_mass_kilotons = r₀.ice_mass_kilotons ∨ IceP r.ice_mass_kilotons)

/-- Pointwise lifting of a region relation to optional lookups. -/
def OptionRel (R : Region → Region → Prop) : Option Region → Option Region → Prop
  | none, none => True
  | some a, some b => R a b
  | _, _ => False

theorem foldWrites_optionRel {keyOf : α → Nat} {write : α → Region → Region}
    {R : Region → Region → Prop} {rs₀ : List Region} :
    ∀ (l : List α), (∀ e ∈ l, ∀ r₀ r, R r₀ r → R r₀ (write e r)) →
      ∀ rs, (∀ j, OptionRel R (rs₀.get? j) (rs.get? j)) →
      ∀ j, OptionRel R (rs₀.get? j) ((foldWrites rs l keyOf write).get? j) := by
  intro l
  induction l with
  | nil => intro _ rs h j; exact h j
  | cons e es ih =>
    intro hw rs h j
    unfold foldWrites at ih ⊢
    rw [List.foldl_cons]
    refine ih (fun x hx => hw x (by simp [hx])) _ ?_ j
    intro i
    rw [modifyIdx_get?]
    by_cases hi : i = keyOf e
    · subst hi
      rw [if_pos rfl]
      have hrel := h (keyOf e)
      cases hr : rs.get? (keyOf e) with
      | none =>
        rw [hr] at hrel
        cases hs : rs₀.get? (keyOf e) with
        | none => trivial
        | some r₀ =>
          rw [hs] at hrel
          exact (hrel : False).elim
      | some r =>
        rw [hr] at hrel
        cases hs : rs₀.get? (keyOf e) with
        | none =>
          rw [hs] at hrel
          exact (hrel : False).elim
        | some r₀ =>
          rw [hs] at hrel
          exact hw e (by simp) r₀ r hrel
    · rw [if_neg hi]
      exact h i

theorem clamp_u16_le (v : Int) (hi : Nat) : clamp_u16 v 0 hi ≤ hi := by
  unfold clamp_u16
  omega

theorem clamp_i16_mem (v lo hi : Int) (h : lo ≤ hi) :
    lo ≤ clamp_i16 v lo hi ∧ clamp_i16 v lo hi ≤ hi := by
  unfold clamp_i16
  omega

theorem clamp_biome_index_le (v : Int) : clamp_biome_index v ≤ 255 := by
  unfold clamp_biome_index
  omega

/-- C3 (amended): committing any diff to any world clamps every written
meter into its range — water and soil into `[0, 10000]`, precipitation into
`[0, 5000]`, albedo into `[0, 1000]`, freshwater flux into `[0, 2000]`,
temperature into `[-500, 500]` tenths, hazard gauges into `[0, 10000]`,
biome into `[0, 255]` (the `u8` range, not the spec's `{0..=5}`), ice mass
floored at zero — while elevation is committed unclamped (some recorded
elevation value is stored verbatim) and untouched meters keep their prior
values. -/
theorem claim_C3_amended_apply_clamps (w : World) (d : FullDiff) (j : Nat)
    (r₀ r' : Region) (h0 : w.regions.get? j = some r₀)
    (h1 : (apply w d).regions.get? j = some r') :
    MeterOk (fun z => ∃ sv ∈ d.elevation, sv.value = z)
      (fun n => ∃ v : Int, n = (max v 0).toNat) r₀ r' := by
  have base : ∀ i, OptionRel
      (MeterOk (fun z => ∃ sv ∈ d.elevation, sv.value = z)
        (fun n => ∃ v : Int, n = (max v 0).toNat)) (w.regions.get? i) (w.regions.get? i) := by
    intro i
    cases w.regions.get? i with
    | none => trivial
    | some r =>
      exact ⟨Or.inl rfl, Or.inl rfl, Or.inl rfl, Or.inl rfl, Or.inl rfl, Or.inl rfl,
        Or.inl rfl, Or.inl rfl, Or.inl rfl, Or.inl rfl, Or.inl rfl⟩
  have hwBiome : ∀ e ∈ sortByRegion BiomeChange.region d.biome, ∀ r₀ r,
      MeterOk (fun z => ∃ sv ∈ d.elevation, sv.value = z)
        (fun n => ∃ v : Int, n = (max v 0).toNat) r₀ r →
      MeterOk (fun z => ∃ sv ∈ d.elevation, sv.value = z)
        (fun n => ∃ v : Int, n = (max v 0).toNat) r₀ (writeBiome e r) := by
    rintro e _ r₀ r ⟨q1, q2, q3, q4, q5, q6, q7, q8, _, q10, q11⟩
    exact ⟨q1, q2, q3, q4, q5, q6, q7, q8, Or.inr (clamp_biome_index_le e.biome), q10, q11⟩
  have hwWater : ∀ e ∈ sortByRegion ResourceDelta.region d.water, ∀ r₀ r,
      MeterOk (fun z => ∃ sv ∈ d.elevation, sv.value = z)
        (fun n => ∃ v : Int, n = (max v 0).toNat) r₀ r →
      MeterOk (fun z => ∃ sv ∈ d.elevation, sv.value = z)
        (fun n => ∃ v : Int, n = (max v 0).toNat) r₀ (writeWater e r) := by
    rintro e _ r₀ r ⟨_, q2, q3, q4, q5, q6, q7, q8, q9, q10, q11⟩
    exact ⟨Or.inr (clamp_u16_le _ _), q2, q3, q4, q5, q6, q7, q8, q9, q10, q11⟩
  have hwSoil : ∀ e ∈ sortByRegion ResourceDelta.region d.soil, ∀ r₀ r,
      MeterOk (fun z => ∃ sv ∈ d.elevation, sv.value = z)
        (fun n => ∃ v : Int, n = (max v 0).toNat) r₀ r →
      MeterOk (fun z => ∃ sv ∈ d.elevation, sv.value = z)
        (fun n => ∃ v : Int, n = (max v 0).toNat) r₀ (writeSoil e r) := by
    rintro e _ r₀ r ⟨q1, _, q3, q4, q5, q6, q7, q8, q9, q10, q11⟩
    exact ⟨q1, Or.inr (clamp_u16_le _ _), q3, q4, q5, q6, q7, q8, q9, q10, q11⟩
  have hwElev : ∀ e ∈ sortByRegion ScalarValue.region d.elevation, ∀ r₀ r,
      MeterOk (fun z => ∃ sv ∈ d.elevation, sv.value = z)
        (fun n => ∃ v : Int, n = (max v 0).toNat) r₀ r →
      MeterOk (fun z => ∃ sv ∈ d.elevation, sv.value = z)
        (fun n => ∃ v : Int, n = (max v 0).toNat) r₀ (writeElevation e r) := by
    rintro e he r₀ r ⟨q1, q2, q3, q4, q5, q6, q7, q8, q9, _, q11⟩
    refine ⟨q1, q2, q3, q4, q5, q6, q7, q8, q9, Or.inr ?_, q11⟩
    exact ⟨e, (List.perm_insertionSort _ _).mem_iff.mp he, rfl⟩
  have hwTemp : ∀ e ∈ sortByRegion ScalarValue.region d.temperature, ∀ r₀ r,
      MeterOk (fun z => ∃ sv ∈ d.elevation, sv.value = z)
        (fun n => ∃ v : Int, n = (max v 0).toNat) r₀ r →
      MeterOk (fun z => ∃ sv ∈ d.elevation, sv.value = z)
        (fun n => ∃ v : Int, n = (max v 0).toNat) r₀ (writeTemperature e r) := by
    rintro e _ r₀ r ⟨q1, q2, q3, q4, q5, _, q7, q8, q9, q10, q11⟩
    exact ⟨q1, q2, q3, q4, q5, Or.inr (clamp_i16_mem _ _ _ (by unfold TEMP_MIN_TENTHS_C TEMP_MAX_TENTHS_C; omega)),
      q7, q8, q9, q10, q11⟩
  have hwPrecip : ∀ e ∈ sortByRegion ScalarValue.region d.precipitation, ∀ r₀ r,
      MeterOk (fun z => ∃ sv ∈ d.elevation, sv.value = z)
        (fun n => ∃ v : Int, n = (max v 0).toNat) r₀ r →
      MeterOk (fun z => ∃ sv ∈ d.elevation, sv.value = z)
        (fun n => ∃ v : Int, n = (max v 0).toNat) r₀ (writePrecipitation e r) := by
    rintro e _ r₀ r ⟨q1, q2, _, q4, q5, q6, q7, q8, q9, q10, q11⟩
    exact ⟨q1, q2, Or.inr (clamp_u16_le _ _), q4, q5, q6, q7, q8, q9, q10, q11⟩
  have hwAlbedo : ∀ e ∈ sortByRegion ScalarValue.region d.albedo, ∀ r₀ r,
      MeterOk (fun z => ∃ sv ∈ d.elevation, sv.value = z)
        (fun n => ∃ v : Int, n = (max v 0).toNat) r₀ r →
      MeterOk (fun z => ∃ sv ∈ d.elevation, sv.value = z)
        (fun n => ∃ v : Int, n = (max v 0).toNat) r₀ (writeAlbedo e r) := by
    rintro e _ r₀ r ⟨q1, q2, q3, _, q5, q6, q7, q8, q9, q10, q11⟩
    exact ⟨q1, q2, q3, Or.inr (clamp_u16_le _ _), q5, q6, q7, q8, q9, q10, q11⟩
  have hwFresh : ∀ e ∈ sortByRegion ScalarValue.region d.freshwater_flux, ∀ r₀ r,
      MeterOk (fun z => ∃ sv ∈ d.elevation, sv.value = z)
        (fun n => ∃ v : Int, n = (max v 0).toNat) r₀ r →
      MeterOk (fun z => ∃ sv ∈ d.elevation, sv.value = z)
        (fun n => ∃ v : Int, n = (max v 0).toNat) r₀ (writeFreshwater e r) := by
    rintro e _ r₀ r ⟨q1, q2, q3, q4, _, q6, q7, q8, q9, q10, q11⟩
    exact ⟨q1, q2, q3, q4, Or.inr (clamp_u16_le _ _), q6, q7, q8, q9, q10, q11⟩
  have hwIce : ∀ e ∈ sortByRegion ScalarValue.region d.ice_mass, ∀ r₀ r,
      MeterOk (fun z => ∃ sv ∈ d.elevation, sv.value = z)
        (fun n => ∃ v : Int, n = (max v 0).toNat) r₀ r →
      MeterOk (fun z => ∃ sv ∈ d.elevation, sv.value = z)
        (fun n => ∃ v : Int, n = (max v 0).toNat) r₀ (writeIceMass e r) := by
    rintro e _ r₀ r ⟨q1, q2, q3, q4, q5, q6, q7, q8, q9, q10, _⟩
    exact ⟨q1, q2, q3, q4, q5, q6, q7, q8, q9, q10, Or.inr ⟨e.value, rfl⟩⟩
  have hwHazard : ∀ e ∈ sortByRegion HazardEvent.region d.hazards, ∀ r₀ r,
      MeterOk (fun z => ∃ sv ∈ d.elevation, sv.value = z)
        (fun n => ∃ v : Int, n = (max v 0).toNat) r₀ r →
      MeterOk (fun z => ∃ sv ∈ d.elevation, sv.value = z)
        (fun n => ∃ v : Int, n = (max v 0).toNat) r₀ (writeHazard e r) := by
    rintro e _ r₀ r ⟨q1, q2, q3, q4, q5, q6, _, _, q9, q10, q11⟩
    exact ⟨q1, q2, q3, q4, q5, q6, Or.inr (clamp_u16_le _ _), Or.inr (clamp_u16_le _ _),
      q9, q10, q11⟩
  have hfin : ∀ i, OptionRel
      (MeterOk (fun z => ∃ sv ∈ d.elevation, sv.value = z)
        (fun n => ∃ v : Int, n = (max v 0).toNat))
      (w.regions.get? i) ((apply w d).regions.get? i) := by
    intro i
    exact foldWrites_optionRel _ hwHazard _
      (fun i => foldWrites_optionRel _ hwIce _
        (fun i => foldWrites_optionRel _ hwFresh _
          (fun i => foldWrites_optionRel _ hwAlbedo _
            (fun i => foldWrites_optionRel _ hwPrecip _
              (fun i => foldWrites_optionRel _ hwTemp _
                (fun i => foldWrites_optionRel _ hwElev _
                  (fun i => foldWrites_optionRel _ hwSoil _
                    (fun i => foldWrites_optionRel _ hwWater _
                      (fun i => foldWrites_optionRel _ hwBiome _ base i) i) i) i) i) i) i) i) i) i
  have hj := hfin j
  rw [h0, h1] at hj
  exact hj

/-- Single-region world used in concrete checks of `apply`. -/
def worldSampleA : World :=
  { tick := 0, seed := 0, width := 1, height := 1,
    regions := [{ id := 0, x := 0, y := 0, elevation_m := 0, latitude_deg := 0.0,
                  biome := 1, water := 1000, soil := 9000, temperature_tenths_c := 0,
                  precipitation_mm := 0, albedo_milli := 350,
                  freshwater_flux_tenths_mm := 0, ice_mass_kilotons := 0,
                  hazards := ⟨0, 0⟩ }],
    climate := { temperature_baseline_tenths := [0], last_albedo_milli := [350],
                 last_insolation_tenths := [0], sea_level_equivalent_mm := 0 } }

/-- Diff driving the biome/elevation counterexample for the clamp claim. -/
def diffSampleC3 : FullDiff :=
  { biome := [⟨0, 200⟩], elevation := [⟨0, 9999⟩] }

theorem claim_C3_counterexample :
    ((apply worldSampleA diffSampleC3).regions.get? 0).map Region.biome = some 200 ∧
      ¬ (200 : Nat) ≤ 5 ∧
      ((apply worldSampleA diffSampleC3).regions.get? 0).map Region.elevation_m = some 9999 ∧
      ¬ ((-1000 : Int) ≤ 9999 ∧ (9999 : Int) ≤ 4000) := by
  refine ⟨rfl, by decide, rfl, by decide⟩

theorem claim_C3_witness :
    worldSampleA.regions.get? 0 =
        some { id := 0, x := 0, y := 0, elevation_m := 0, latitude_deg := 0.0,
               biome := 1, water := 1000, soil := 9000, temperature_tenths_c := 0,
               precipitation_mm := 0, albedo_milli := 350,
               freshwater_flux_tenths_mm := 0, ice_mass_kilotons := 0,
               hazards := ⟨0, 0⟩ } ∧
      MeterOk (fun z => ∃ sv ∈ diffSampleC3.elevation, sv.value = z)
        (fun n => ∃ v : Int, n = (max v 0).toNat)
        { id := 0, x := 0, y := 0, elevation_m := 0, latitude_deg := 0.0,
          biome := 1, water := 1000, soil := 9000, temperature_tenths_c := 0,
          precipitation_mm := 0, albedo_milli := 350,
          freshwater_flux_tenths_mm := 0, ice_mass_kilotons := 0,
          hazards := ⟨0, 0⟩ }
        { id := 0, x := 0, y := 0, elevation_m := 9999, latitude_deg := 0.0,
          biome := 200, water := 1000, soil := 9000, temperature_tenths_c := 0,
          precipitation_mm := 0, albedo_milli := 350,
          freshwater_flux_tenths_mm := 0, ice_mass_kilotons := 0,
          hazards := ⟨0, 0⟩ } :=
  ⟨rfl, claim_C3_amended_apply_clamps worldSampleA diffSampleC3 0 _ _ rfl rfl⟩

end Sim

namespace Sim

/-! ## Coupler (`src/kernels/coupler.rs::reconcile_inner`)

The `reconcile_with_world` wrapper threads the world through a thread-local
pointer and is modelled by passing the world explicitly; `reconcile_inner`
is the whole computation.  The `record_temperature_baseline` /
`record_diagnostic` diff operations it calls are absent from this
snapshot's `diff.rs` and are modelled from the spec (§3's diff field list
and diagnostics mapping). -/

/-- Baseline clamp bound, `coupler.rs::BASELINE_LIMIT_TENTHS`. -/
def BASELINE_LIMIT_TENTHS : Int := 120

/-- Round-half-away-from-zero division of an integer by a positive divisor:
the model of `(x as f64 / d as f64).round() as i32`.  Exact for every
magnitude the coupler reaches: the integer operands convert to `f64`
exactly, tie quotients `k + 1/2` are exactly representable, and for non-tie
quotients the division error cannot cross a rounding boundary. -/
def round_div_away (a : Int) (b : Nat) : Int :=
  if 0 ≤ a then ((2 * a.toNat + b) / (2 * b) : Nat)
  else -(((2 * a.natAbs + b) / (2 * b) : Nat) : Int)

/-- Loop state of `reconcile_inner`: the two climate vectors being mutated
in place, the running totals, the adjusted-region count and the diff under
construction. -/
structure CouplerAcc where
  last_albedo : List Int
  baseline : List Int
  total_anomaly : Int
  total_adjust : Int
  adjusted : Nat
  diff : FullDiff

/-- One iteration of the `reconcile_inner` region loop for `(index,
region)`: snapshot handling (a stored `0` means "use the current albedo as
baseline"), anomaly computation, the `[-1, 1]`-clamped adjustment and the
`[-120, 120]`-clamped baseline update. -/
def coupler_step (acc : CouplerAcc) (ie : Nat × Region) : CouplerAcc :=
  let index := ie.1
  let region := ie.2
  let current : Int := region.albedo_milli
  let slot := acc.last_albedo.getD index 0
  let previous := if slot = 0 then current else slot
  let last' := modifyIdx acc.last_albedo index (fun _ => current)
  let anomaly := current - previous
  if anomaly = 0 then { acc with last_albedo := last' }
  else
    let raw_adjust := round_div_away (-anomaly) 120
    let bounded := clamp_i16 raw_adjust (-1) 1
    let previous_b := acc.baseline.getD index 0
    let updated := clamp_i16 (previous_b + bounded) (-BASELINE_LIMIT_TENTHS)
      BASELINE_LIMIT_TENTHS
    if updated = previous_b then
      { acc with last_albedo := last',
                 total_anomaly := acc.total_anomaly + anomaly,
                 adjusted := acc.adjusted + 1 }
    else
      { last_albedo := last',
        baseline := modifyIdx acc.baseline index (fun _ => updated),
        total_anomaly := acc.total_anomaly + anomaly,
        total_adjust := acc.total_adjust + (updated - previous_b),
        adjusted := acc.adjusted + 1,
        diff := acc.diff.record_temperature_baseline index updated }

/-- The net effect of one loop iteration on the region's baseline slot,
as a pure function of the region, the stored snapshot and the prior
baseline. -/
def coupler_region_baseline (r : Region) (slot0 b0 : Int) : Int :=
  let current : Int := r.albedo_milli
  let previous := if slot0 = 0 then current else slot0
  let anomaly := current - previous
  if anomaly = 0 then b0
  else
    let bounded := clamp_i16 (round_div_away (-anomaly) 120) (-1) 1
    clamp_i16 (b0 + bounded) (-BASELINE_LIMIT_TENTHS) BASELINE_LIMIT_TENTHS

/-- Diagnostic name for the mean albedo anomaly. -/
def albedoAnomalyName : String := "albedo_anomaly_milli"

/-- Diagnostic name for the mean baseline adjustment. -/
def energyBalanceName : String := "energy_balance"

/-- Cause target used by the coupler. -/
def couplerTarget : String := "climate:coupler"

/-- Note tag for the albedo-feedback cause. -/
def meanMilliTag : String := "mean_milli="

/-- Note tag for the energy-balance cause. -/
def meanTenthsTag : String := "mean_tenths="

/-- Initial loop state of `reconcile_inner` after `ensure_region_capacity`. -/
def coupler_acc0 (w : World) : CouplerAcc :=
  ⟨padZeros w.climate.last_albedo_milli w.regions.length,
    padZeros w.climate.temperature_baseline_tenths w.regions.length, 0, 0, 0,
    FullDiff.empty⟩

/-- The `reconcile_inner` region loop: fold of `coupler_step` over the
indexed region list. -/
def coupler_fold (w : World) : CouplerAcc :=
  w.regions.enum.foldl coupler_step (coupler_acc0 w)

/-- Main branch of `reconcile_inner` (regions nonempty, cryosphere albedo
diff nonempty): run the loop, emit the mean diagnostics and causes when any
region was adjusted, and commit the mutated climate vectors. -/
def reconcile_main (w : World) : World × FullDiff :=
  let acc := coupler_fold w
  let diff :=
    if 0 < acc.adjusted ∧ (¬ acc.diff.temperature_baseline.isEmpty ∨
        acc.total_anomaly ≠ 0) then
      let mean_anomaly := round_div_away acc.total_anomaly acc.adjusted
      let mean_adjust := round_div_away acc.total_adjust acc.adjusted
      let d := FullDiff.record_diagnostic acc.diff albedoAnomalyName mean_anomaly
      let d := FullDiff.record_diagnostic d energyBalanceName mean_adjust
      let d := FullDiff.record_cause d
        ⟨couplerTarget, Code.AlbedoFeedback, some (meanMilliTag ++ intDecimal mean_anomaly)⟩
      FullDiff.record_cause d
        ⟨couplerTarget, Code.EnergyBalanceAdjustment,
          some (meanTenthsTag ++ intDecimal mean_adjust)⟩
    else acc.diff
  let climate := w.climate.ensure_region_capacity w.regions.length
  let climate := { climate with last_albedo_milli := acc.last_albedo,
                                temperature_baseline_tenths := acc.baseline }
  ({ w with climate := climate }, diff)

/-- Cross-tick albedo → temperature-baseline feedback, translated from
`coupler.rs::reconcile_inner`.  Returns the updated world together with the
coupler diff. -/
def reconcile_inner (w : World) (atmos_diff cryo_diff : FullDiff) : World × FullDiff :=
  let _ := atmos_diff
  if cryo_diff.albedo.isEmpty then (w, FullDiff.empty)
  else if w.regions.length = 0 then (w, FullDiff.empty)
  else reconcile_main w

end Sim

namespace Sim

theorem modifyIdx_length (l : List α) (i : Nat) (f : α → α) :
    (modifyIdx l i f).length = l.length := by
  induction l generalizing i with
  | nil => rfl
  | cons x xs ih =>
    cases i with
    | zero => simp [modifyIdx]
    | succ i => simp [modifyIdx, ih i]

theorem modifyIdx_getD_ne {l : List α} {i j : Nat} {f : α → α} {d : α} (h : j ≠ i) :
    (modifyIdx l i f).getD j d = l.getD j d := by
  rw [List.getD_eq_get?, List.getD_eq_get?, modifyIdx_get?, if_neg h]

theorem modifyIdx_getD_eq {l : List α} {i : Nat} {f : α → α} {d : α} (h : i < l.length) :
    (modifyIdx l i f).getD i d = f (l.getD i d) := by
  rw [List.getD_eq_get?, List.getD_eq_get?, modifyIdx_get?, if_pos rfl]
  cases hg : l.get? i with
  | none => exact absurd (List.get?_eq_none.mp hg) (by omega)
  | some a => rfl

theorem coupler_step_last_length (acc : CouplerAcc) (e : Nat × Region) :
    (coupler_step acc e).last_albedo.length = acc.last_albedo.length := by
  unfold coupler_step
  dsimp only
  repeat' split
  all_goals exact modifyIdx_length _ _ _

theorem coupler_step_baseline_length (acc : CouplerAcc) (e : Nat × Region) :
    (coupler_step acc e).baseline.length = acc.baseline.length := by
  unfold coupler_step
  dsimp only
  repeat' split
  all_goals first
    | rfl
    | exact modifyIdx_length _ _ _

theorem coupler_step_frame {acc : CouplerAcc} {e : Nat × Region} {i : Nat} (h : e.1 ≠ i) :
    (coupler_step acc e).baseline.getD i 0 = acc.baseline.getD i 0 ∧
    (coupler_step acc e).last_albedo.getD i 0 = acc.last_albedo.getD i 0 ∧
    (∀ sv ∈ (coupler_step acc e).diff.temperature_baseline,
      sv.region = i → sv ∈ acc.diff.temperature_baseline) := by
  unfold coupler_step
  dsimp only
  repeat' split
  all_goals refine ⟨?_, modifyIdx_getD_ne (fun hh => h hh.symm), ?_⟩
  all_goals first
    | rfl
    | exact modifyIdx_getD_ne (fun hh => h hh.symm)
    | exact fun sv hs _ => hs
    | (intro sv hs hreg
       rcases mem_upsertByKey hs with rfl | hs'
       · exact absurd hreg h
       · exact hs')

theorem coupler_fold_frame {l : List (Nat × Region)} {i : Nat}
    (hne : ∀ e ∈ l, e.1 ≠ i) :
    ∀ acc : CouplerAcc,
      (l.foldl coupler_step acc).baseline.getD i 0 = acc.baseline.getD i 0 ∧
      (l.foldl coupler_step acc).last_albedo.getD i 0 = acc.last_albedo.getD i 0 ∧
      (∀ sv ∈ (l.foldl coupler_step acc).diff.temperature_baseline,
        sv.region = i → sv ∈ acc.diff.temperature_baseline) := by
  induction l with
  | nil => intro acc; exact ⟨rfl, rfl, fun sv hs _ => hs⟩
  | cons e es ih =>
    intro acc
    rw [List.foldl_cons]
    have hstep := @coupler_step_frame acc e _ (hne e (by simp))
    have hrest := ih (fun x hx => hne x (by simp [hx])) (coupler_step acc e)
    refine ⟨hrest.1.trans hstep.1, hrest.2.1.trans hstep.2.1, ?_⟩
    intro sv hs hreg
    exact hstep.2.2 sv (hrest.2.2 sv hs hreg) hreg

theorem coupler_step_point {acc : CouplerAcc} {i : Nat} {r : Region}
    (hb : i < acc.baseline.length) (hl : i < acc.last_albedo.length) :
    (coupler_step acc (i, r)).baseline.getD i 0 =
      coupler_region_baseline r (acc.last_albedo.getD i 0) (acc.baseline.getD i 0) ∧
    (coupler_step acc (i, r)).last_albedo.getD i 0 = (r.albedo_milli : Int) ∧
    (acc.last_albedo.getD i 0 = 0 →
      (coupler_step acc (i, r)).diff.temperature_baseline =
        acc.diff.temperature_baseline) := by
  unfold coupler_step coupler_region_baseline
  dsimp only
  by_cases hslot : acc.last_albedo.getD i 0 = 0
  · simp only [if_pos hslot]
    simp only [sub_self, if_pos rfl]
    exact ⟨rfl, modifyIdx_getD_eq hl, fun _ => rfl⟩
  · simp only [if_neg hslot]
    by_cases hanom : (r.albedo_milli : Int) - acc.last_albedo.getD i 0 = 0
    · simp only [if_pos hanom]
      exact ⟨trivial, modifyIdx_getD_eq hl, fun hz => absurd hz hslot⟩
    · simp only [if_neg hanom]
      by_cases hupd : clamp_i16 (acc.baseline.getD i 0 +
          clamp_i16 (round_div_away (-((r.albedo_milli : Int) -
            acc.last_albedo.getD i 0)) 120) (-1) 1)
          (-BASELINE_LIMIT_TENTHS) BASELINE_LIMIT_TENTHS = acc.baseline.getD i 0
      · simp only [if_pos hupd]
        exact ⟨hupd.symm, modifyIdx_getD_eq hl, fun hz => absurd hz hslot⟩
      · simp only [if_neg hupd]
        exact ⟨modifyIdx_getD_eq hb, modifyIdx_getD_eq hl, fun hz => absurd hz hslot⟩

end Sim

namespace Sim

theorem coupler_fold_point :
    ∀ (l : List (Nat × Region)) (acc : CouplerAcc),
      l.Pairwise (fun a b => a.1 < b.1) →
      ∀ i r, (i, r) ∈ l → i < acc.baseline.length → i < acc.last_albedo.length →
      ((l.foldl coupler_step acc).baseline.getD i 0 =
         coupler_region_baseline r (acc.last_albedo.getD i 0) (acc.baseline.getD i 0) ∧
       (l.foldl coupler_step acc).last_albedo.getD i 0 = (r.albedo_milli : Int) ∧
       (acc.last_albedo.getD i 0 = 0 →
         ∀ sv ∈ (l.foldl coupler_step acc).diff.temperature_baseline,
           sv.region = i → sv ∈ acc.diff.temperature_baseline)) := by
  intro l
  induction l with
  | nil => intro acc _ i r hmem; exact absurd hmem (by simp)
  | cons e es ih =>
    intro acc hp i r hmem hb hl
    cases hp with
    | cons hhead htail =>
      rw [List.foldl_cons]
      rcases List.mem_cons.mp hmem with heq | hmem'
      · -- the head entry is (i, r)
        subst heq
        have hne : ∀ x ∈ es, x.1 ≠ i := by
          intro x hx
          have h2 : i < x.1 := hhead x hx
          omega
        have hframe := coupler_fold_frame hne (coupler_step acc (i, r))
        have hpoint : (coupler_step acc (i, r)).baseline.getD i 0 =
            coupler_region_baseline r (acc.last_albedo.getD i 0) (acc.baseline.getD i 0) ∧
            (coupler_step acc (i, r)).last_albedo.getD i 0 = (r.albedo_milli : Int) ∧
            (acc.last_albedo.getD i 0 = 0 →
              (coupler_step acc (i, r)).diff.temperature_baseline =
                acc.diff.temperature_baseline) := coupler_step_point hb hl
        refine ⟨hframe.1.trans hpoint.1, hframe.2.1.trans hpoint.2.1, ?_⟩
        intro hz sv hs hreg
        have := hframe.2.2 sv hs hreg
        rw [hpoint.2.2 hz] at this
        exact this
      · -- the entry lies in the tail
        have hji : e.1 ≠ i := by
          have h2 : e.1 < i := hhead (i, r) hmem'
          omega
        have hframe := @coupler_step_frame acc e _ hji
        have hb' : i < (coupler_step acc e).baseline.length := by
          rw [coupler_step_baseline_length]; exact hb
        have hl' : i < (coupler_step acc e).last_albedo.length := by
          rw [coupler_step_last_length]; exact hl
        have hih := ih (coupler_step acc e) htail i r hmem' hb' hl'
        refine ⟨?_, ?_, ?_⟩
        · rw [hih.1, hframe.1, hframe.2.1]
        · exact hih.2.1
        · intro hz sv hs hreg
          have hz' : (coupler_step acc e).last_albedo.getD i 0 = 0 := by
            rw [hframe.2.1]; exact hz
          exact hframe.2.2 sv (hih.2.2 hz' sv hs hreg) hreg

end Sim

namespace Sim

theorem enum_pairwise (l : List α) : l.enum.Pairwise (fun a b => a.1 < b.1) := by
  rw [List.pairwise_iff_getElem]
  intro i j hi hj hij
  simp only [List.getElem_enum]
  simpa using hij

theorem padZeros_getD (l : List Int) (n i : Nat) :
    (padZeros l n).getD i 0 = l.getD i 0 := by
  unfold padZeros
  rw [List.getD_eq_getElem?_getD, List.getD_eq_getElem?_getD]
  rw [List.getElem?_append]
  by_cases h : i < l.length
  · rw [if_pos h]
  · rw [if_neg h]
    rw [show l[i]? = none from List.getElem?_eq_none (by omega)]
    cases hrep : (List.replicate (n - l.length) (0 : Int))[i - l.length]? with
    | none => rfl
    | some v =>
      have hv : v = 0 := List.eq_of_mem_replicate (List.getElem?_mem hrep)
      rw [hv]
      rfl

theorem padZeros_length (l : List Int) (n : Nat) :
    (padZeros l n).length = max l.length n := by
  unfold padZeros
  rw [List.length_append, List.length_replicate]
  omega

theorem coupler_region_baseline_close (r : Region) (s b0 : Int)
    (h : -120 ≤ b0 ∧ b0 ≤ 120) :
    (coupler_region_baseline r s b0 - b0 ≤ 1 ∧ b0 - coupler_region_baseline r s b0 ≤ 1) ∧
    (-120 ≤ coupler_region_baseline r s b0 ∧ coupler_region_baseline r s b0 ≤ 120) := by
  unfold coupler_region_baseline
  dsimp only
  split
  · omega
  · unfold clamp_i16 BASELINE_LIMIT_TENTHS
    generalize round_div_away (-((r.albedo_milli : Int) - if s = 0 then (r.albedo_milli : Int) else s)) 120 = q
    omega

end Sim

namespace Sim

theorem coupler_step_diff_temperature (acc : CouplerAcc) (e : Nat × Region) :
    (coupler_step acc e).diff.temperature = acc.diff.temperature := by
  unfold coupler_step
  dsimp only
  repeat' split
  all_goals rfl

theorem coupler_fold_diff_temperature (l : List (Nat × Region)) :
    ∀ acc, (l.foldl coupler_step acc).diff.temperature = acc.diff.temperature := by
  induction l with
  | nil => intro acc; rfl
  | cons e es ih =>
    intro acc
    rw [List.foldl_cons, ih, coupler_step_diff_temperature]

theorem coupler_step_tb_bound {acc : CouplerAcc} {e : Nat × Region}
    (h : ∀ sv ∈ acc.diff.temperature_baseline, -120 ≤ sv.value ∧ sv.value ≤ 120) :
    ∀ sv ∈ (coupler_step acc e).diff.temperature_baseline,
      -120 ≤ sv.value ∧ sv.value ≤ 120 := by
  unfold coupler_step
  dsimp only
  repeat' split
  all_goals first
    | exact h
    | (intro sv hs
       rcases mem_upsertByKey hs with rfl | hs'
       · constructor <;>
           (unfold clamp_i16 BASELINE_LIMIT_TENTHS
            dsimp only
            omega)
       · exact h sv hs')

theorem coupler_fold_tb_bound (l : List (Nat × Region)) :
    ∀ acc, (∀ sv ∈ acc.diff.temperature_baseline, -120 ≤ sv.value ∧ sv.value ≤ 120) →
      ∀ sv ∈ (l.foldl coupler_step acc).diff.temperature_baseline,
        -120 ≤ sv.value ∧ sv.value ≤ 120 := by
  induction l with
  | nil => intro acc h; exact h
  | cons e es ih =>
    intro acc h
    rw [List.foldl_cons]
    exact ih _ (coupler_step_tb_bound h)

theorem coupler_fold_all_zero (l : List (Nat × Region)) :
    ∀ acc, l.Pairwise (fun a b => a.1 < b.1) →
      (∀ e ∈ l, acc.last_albedo.getD e.1 0 = 0) →
      (l.foldl coupler_step acc).diff = acc.diff ∧
      (l.foldl coupler_step acc).adjusted = acc.adjusted := by
  induction l with
  | nil => intro acc _ _; exact ⟨rfl, rfl⟩
  | cons e es ih =>
    intro acc hp hz
    cases hp with
    | cons hhead htail =>
      rw [List.foldl_cons]
      have hslot : acc.last_albedo.getD e.1 0 = 0 := hz e (by simp)
      have hstep : coupler_step acc e = { acc with
          last_albedo := modifyIdx acc.last_albedo e.1 fun _ => (e.2.albedo_milli : Int) } := by
        unfold coupler_step
        dsimp only
        rw [if_pos hslot]
        simp
      rw [hstep]
      refine ih _ htail ?_
      intro x hx
      have hne : x.1 ≠ e.1 := by
        have h2 : e.1 < x.1 := hhead x hx
        omega
      show (modifyIdx acc.last_albedo e.1 fun _ => (e.2.albedo_milli : Int)).getD x.1 0 = 0
      rw [modifyIdx_getD_ne hne]
      exact hz x (by simp [hx])

end Sim

namespace Sim

theorem reconcile_main_regions (w : World) : (reconcile_main w).1.regions = w.regions :=
  rfl

theorem reconcile_main_baseline (w : World) :
    (reconcile_main w).1.climate.temperature_baseline_tenths = (coupler_fold w).baseline :=
  rfl

theorem reconcile_main_last_albedo (w : World) :
    (reconcile_main w).1.climate.last_albedo_milli = (coupler_fold w).last_albedo :=
  rfl

theorem record_diagnostic_temperature (d : FullDiff) (n : String) (v : Int) :
    (FullDiff.record_diagnostic d n v).temperature = d.temperature :=
  rfl

theorem record_cause_full_temperature (d : FullDiff) (e : Entry) :
    (FullDiff.record_cause d e).temperature = d.temperature :=
  rfl

theorem record_diagnostic_tb (d : FullDiff) (n : String) (v : Int) :
    (FullDiff.record_diagnostic d n v).temperature_baseline = d.temperature_baseline :=
  rfl

theorem record_cause_full_tb (d : FullDiff) (e : Entry) :
    (FullDiff.record_cause d e).temperature_baseline = d.temperature_baseline :=
  rfl

theorem reconcile_main_diff_temperature (w : World) :
    (reconcile_main w).2.temperature = (coupler_fold w).diff.temperature := by
  unfold reconcile_main
  dsimp only
  split
  · rw [record_cause_full_temperature, record_cause_full_temperature,
      record_diagnostic_temperature, record_diagnostic_temperature]
  · rfl

theorem reconcile_main_diff_tb (w : World) :
    (reconcile_main w).2.temperature_baseline =
      (coupler_fold w).diff.temperature_baseline := by
  unfold reconcile_main
  dsimp only
  split
  · rw [record_cause_full_tb, record_cause_full_tb,
      record_diagnostic_tb, record_diagnostic_tb]
  · rfl

theorem coupler_fold_point_world (w : World) (i : Nat) (r : Region)
    (hmem : w.regions.get? i = some r) :
    (coupler_fold w).baseline.getD i 0 =
      coupler_region_baseline r (w.climate.last_albedo_milli.getD i 0)
        (w.climate.temperature_baseline_tenths.getD i 0) ∧
    (coupler_fold w).last_albedo.getD i 0 = (r.albedo_milli : Int) ∧
    (w.climate.last_albedo_milli.getD i 0 = 0 →
      ∀ sv ∈ (coupler_fold w).diff.temperature_baseline, sv.region ≠ i) := by
  have hlen : i < w.regions.length := by
    rcases List.get?_eq_some.mp hmem with ⟨h, _⟩
    exact h
  have hb' : i < (coupler_acc0 w).baseline.length := by
    show i < (padZeros w.climate.temperature_baseline_tenths w.regions.length).length
    rw [padZeros_length]; omega
  have hl' : i < (coupler_acc0 w).last_albedo.length := by
    show i < (padZeros w.climate.last_albedo_milli w.regions.length).length
    rw [padZeros_length]; omega
  have hmem_enum : (i, r) ∈ w.regions.enum := by
    rw [List.mk_mem_enum_iff_getElem?]
    rw [← List.get?_eq_getElem?]
    exact hmem
  have hpoint := coupler_fold_point w.regions.enum (coupler_acc0 w)
    (enum_pairwise _) i r hmem_enum hb' hl'
  have hslot0 : (coupler_acc0 w).last_albedo.getD i 0 =
      w.climate.last_albedo_milli.getD i 0 := padZeros_getD _ _ _
  have hbase0 : (coupler_acc0 w).baseline.getD i 0 =
      w.climate.temperature_baseline_tenths.getD i 0 := padZeros_getD _ _ _
  rw [hslot0, hbase0] at hpoint
  refine ⟨hpoint.1, hpoint.2.1, ?_⟩
  intro hz sv hs
  intro hreg
  have := hpoint.2.2 hz sv hs hreg
  exact absurd this (by simp [coupler_acc0, FullDiff.empty])

/-- C6 (amended): the coupler never writes temperature in the tick it runs —
the returned diff has no temperature entries and the region vector (hence
every region's `temperature_tenths_c`) is untouched — every baseline value it
records satisfies `|·| ≤ 120`, and for a region whose prior baseline
satisfies `|·| ≤ 120` the slot moves by at most one tenth and stays within
`|·| ≤ 120`.  (Without the prior-bound hypothesis a slot seeded outside
`[-120, 120]` can jump to the clamp boundary in a single tick.) -/
theorem claim_C6_amended_coupler (w : World) (atmos cryo : FullDiff) (i : Nat) (r : Region)
    (hmem : w.regions.get? i = some r)
    (hb : -120 ≤ w.climate.temperature_baseline_tenths.getD i 0 ∧
      w.climate.temperature_baseline_tenths.getD i 0 ≤ 120) :
    (reconcile_inner w atmos cryo).2.temperature = [] ∧
    (∀ sv ∈ (reconcile_inner w atmos cryo).2.temperature_baseline,
      -120 ≤ sv.value ∧ sv.value ≤ 120) ∧
    (reconcile_inner w atmos cryo).1.regions = w.regions ∧
    ((reconcile_inner w atmos cryo).1.climate.temperature_baseline_tenths.getD i 0 -
        w.climate.temperature_baseline_tenths.getD i 0 ≤ 1 ∧
      w.climate.temperature_baseline_tenths.getD i 0 -
        (reconcile_inner w atmos cryo).1.climate.temperature_baseline_tenths.getD i 0 ≤ 1) ∧
    (-120 ≤ (reconcile_inner w atmos cryo).1.climate.temperature_baseline_tenths.getD i 0 ∧
      (reconcile_inner w atmos cryo).1.climate.temperature_baseline_tenths.getD i 0 ≤ 120) := by
  unfold reconcile_inner
  dsimp only
  by_cases h1 : cryo.albedo.isEmpty
  · rw [if_pos h1]
    refine ⟨rfl, by simp [FullDiff.empty], rfl, by dsimp only; omega, by dsimp only; omega⟩
  · rw [if_neg h1]
    have hlen : i < w.regions.length := by
      rcases List.get?_eq_some.mp hmem with ⟨h, _⟩
      exact h
    rw [if_neg (by omega)]
    have hpoint := coupler_fold_point_world w i r hmem
    have htemp : (reconcile_main w).2.temperature = [] := by
      rw [reconcile_main_diff_temperature]
      show (coupler_fold w).diff.temperature = []
      unfold coupler_fold
      rw [coupler_fold_diff_temperature]
      rfl
    have htb : ∀ sv ∈ (reconcile_main w).2.temperature_baseline,
        -120 ≤ sv.value ∧ sv.value ≤ 120 := by
      rw [reconcile_main_diff_tb]
      show ∀ sv ∈ (coupler_fold w).diff.temperature_baseline, _
      unfold coupler_fold
      exact coupler_fold_tb_bound _ _
        (by intro sv hs; exact absurd hs (by simp [coupler_acc0, FullDiff.empty]))
    have hclose := coupler_region_baseline_close r
      (w.climate.last_albedo_milli.getD i 0)
      (w.climate.temperature_baseline_tenths.getD i 0) hb
    rw [← hpoint.1] at hclose
    rw [← reconcile_main_baseline] at hclose
    exact ⟨htemp, htb, reconcile_main_regions w, hclose.1, hclose.2⟩

/-- Region used by the C6 samples: current albedo 500 while the stored
snapshot is 300, producing an anomaly of +200 milli. -/
def regionSampleC6 : Region :=
  { id := 0, x := 0, y := 0, elevation_m := 0, latitude_deg := 0.0,
    biome := 1, water := 1000, soil := 9000, temperature_tenths_c := 0,
    precipitation_mm := 0, albedo_milli := 500,
    freshwater_flux_tenths_mm := 0, ice_mass_kilotons := 0, hazards := ⟨0, 0⟩ }

/-- World whose single region has its temperature baseline seeded at 400,
far outside the advertised `|·| ≤ 120` band. -/
def worldSampleC6bad : World :=
  { tick := 0, seed := 0, width := 1, height := 1, regions := [regionSampleC6],
    climate := { temperature_baseline_tenths := [400], last_albedo_milli := [300],
                 last_insolation_tenths := [0], sea_level_equivalent_mm := 0 } }

/-- Same world with the baseline inside the band, at 100 tenths. -/
def worldSampleC6ok : World :=
  { tick := 0, seed := 0, width := 1, height := 1, regions := [regionSampleC6],
    climate := { temperature_baseline_tenths := [100], last_albedo_milli := [300],
                 last_insolation_tenths := [0], sea_level_equivalent_mm := 0 } }

/-- Cryosphere diff carrying one albedo write, so the coupler guard passes. -/
def cryoSampleC6 : FullDiff := { albedo := [⟨0, 500⟩] }

/-- C6 counterexample to the unamended per-tick bound: a baseline slot seeded
at 400 tenths is dragged to the clamp boundary 120 in a single coupler run, a
change of 280 tenths — far more than the claimed "at most 1 tenth per tick".
-/
theorem claim_C6_counterexample :
    worldSampleC6bad.climate.temperature_baseline_tenths.getD 0 0 = 400 ∧
    (reconcile_inner worldSampleC6bad FullDiff.empty
        cryoSampleC6).1.climate.temperature_baseline_tenths.getD 0 0 = 120 ∧
    ¬ ((400 : Int) - 120 ≤ 1 ∧ (120 : Int) - 400 ≤ 1) :=
  ⟨rfl, rfl, by decide⟩

/-- C6 witness: the amended coupler theorem applied at a concrete world whose
baseline slot starts at 100 tenths. -/
theorem claim_C6_witness :
    (worldSampleC6ok.regions.get? 0 = some regionSampleC6) ∧
    (-120 ≤ worldSampleC6ok.climate.temperature_baseline_tenths.getD 0 0 ∧
      worldSampleC6ok.climate.temperature_baseline_tenths.getD 0 0 ≤ 120) ∧
    ((reconcile_inner worldSampleC6ok FullDiff.empty cryoSampleC6).2.temperature = [] ∧
     (∀ sv ∈ (reconcile_inner worldSampleC6ok FullDiff.empty
          cryoSampleC6).2.temperature_baseline, -120 ≤ sv.value ∧ sv.value ≤ 120) ∧
     (reconcile_inner worldSampleC6ok FullDiff.empty cryoSampleC6).1.regions =
       worldSampleC6ok.regions ∧
     ((reconcile_inner worldSampleC6ok FullDiff.empty
          cryoSampleC6).1.climate.temperature_baseline_tenths.getD 0 0 -
        worldSampleC6ok.climate.temperature_baseline_tenths.getD 0 0 ≤ 1 ∧
      worldSampleC6ok.climate.temperature_baseline_tenths.getD 0 0 -
        (reconcile_inner worldSampleC6ok FullDiff.empty
          cryoSampleC6).1.climate.temperature_baseline_tenths.getD 0 0 ≤ 1) ∧
     (-120 ≤ (reconcile_inner worldSampleC6ok FullDiff.empty
          cryoSampleC6).1.climate.temperature_baseline_tenths.getD 0 0 ∧
      (reconcile_inner worldSampleC6ok FullDiff.empty
          cryoSampleC6).1.climate.temperature_baseline_tenths.getD 0 0 ≤ 120)) :=
  ⟨rfl, by decide,
    claim_C6_amended_coupler worldSampleC6ok FullDiff.empty cryoSampleC6 0
      regionSampleC6 rfl (by decide)⟩

theorem coupler_region_baseline_zero (r : Region) (b0 : Int) :
    coupler_region_baseline r 0 b0 = b0 := by
  simp [coupler_region_baseline]

theorem reconcile_main_diff_of_all_zero (w : World)
    (hz : ∀ j, w.climate.last_albedo_milli.getD j 0 = 0) :
    (reconcile_main w).2 = FullDiff.empty := by
  have hzl : ∀ e ∈ w.regions.enum, (coupler_acc0 w).last_albedo.getD e.1 0 = 0 := by
    intro e _
    show (padZeros w.climate.last_albedo_milli w.regions.length).getD e.1 0 = 0
    rw [padZeros_getD]
    exact hz e.1
  have hall := coupler_fold_all_zero w.regions.enum (coupler_acc0 w) (enum_pairwise _) hzl
  have hdiff : (coupler_fold w).diff = FullDiff.empty := by
    show (w.regions.enum.foldl coupler_step (coupler_acc0 w)).diff = FullDiff.empty
    rw [hall.1]
    rfl
  have hadj : (coupler_fold w).adjusted = 0 := by
    show (w.regions.enum.foldl coupler_step (coupler_acc0 w)).adjusted = 0
    rw [hall.2]
    rfl
  have hneg : ¬ (0 < (coupler_fold w).adjusted ∧
      (¬ (coupler_fold w).diff.temperature_baseline.isEmpty ∨
        (coupler_fold w).total_anomaly ≠ 0)) := by
    rw [hadj]
    intro h
    exact absurd h.1 (by decide)
  unfold reconcile_main
  dsimp only
  rw [if_neg hneg]
  exact hdiff

/-- C10: a stored last-albedo snapshot equal to 0 is treated as absent.
For a region whose `climate.last_albedo_milli` slot reads 0 when the coupler
runs, the comparison baseline is the current albedo, so the anomaly is 0:
the temperature-baseline slot is left unchanged, no temperature-baseline
entry for that region is recorded, and the snapshot is overwritten with the
current albedo.  The coupler's diagnostics and causes are global means over
the adjusted regions; when every snapshot slot reads 0 no region contributes,
and the returned diff is exactly the empty diff (no diagnostic, no cause). -/
theorem claim_C10_zero_snapshot (w : World) (atmos cryo : FullDiff) (i : Nat) (r : Region)
    (hmem : w.regions.get? i = some r)
    (hrun : cryo.albedo.isEmpty = false)
    (hslot : w.climate.last_albedo_milli.getD i 0 = 0) :
    (reconcile_inner w atmos cryo).1.climate.last_albedo_milli.getD i 0 =
      (r.albedo_milli : Int) ∧
    (reconcile_inner w atmos cryo).1.climate.temperature_baseline_tenths.getD i 0 =
      w.climate.temperature_baseline_tenths.getD i 0 ∧
    (∀ sv ∈ (reconcile_inner w atmos cryo).2.temperature_baseline, sv.region ≠ i) ∧
    ((∀ j, w.climate.last_albedo_milli.getD j 0 = 0) →
      (reconcile_inner w atmos cryo).2 = FullDiff.empty) := by
  have hlen : i < w.regions.length := by
    rcases List.get?_eq_some.mp hmem with ⟨h, _⟩
    exact h
  unfold reconcile_inner
  dsimp only
  rw [if_neg (by rw [hrun]; decide)]
  rw [if_neg (by omega)]
  have hpoint := coupler_fold_point_world w i r hmem
  refine ⟨?_, ?_, ?_, ?_⟩
  · rw [reconcile_main_last_albedo]
    exact hpoint.2.1
  · rw [reconcile_main_baseline, hpoint.1, hslot]
    exact coupler_region_baseline_zero r _
  · rw [reconcile_main_diff_tb]
    exact hpoint.2.2 hslot
  · intro hz
    exact reconcile_main_diff_of_all_zero w hz

/-- World for the C10 witness: the snapshot slot reads 0 while the region's
albedo is 500 and the baseline slot is 37. -/
def worldSampleC10 : World :=
  { tick := 0, seed := 0, width := 1, height := 1, regions := [regionSampleC6],
    climate := { temperature_baseline_tenths := [37], last_albedo_milli := [0],
                 last_insolation_tenths := [0], sea_level_equivalent_mm := 0 } }

/-- C10 witness: the zero-snapshot theorem applied at a concrete world. -/
theorem claim_C10_witness :
    (worldSampleC10.regions.get? 0 = some regionSampleC6) ∧
    (worldSampleC10.climate.last_albedo_milli.getD 0 0 = 0) ∧
    ((reconcile_inner worldSampleC10 FullDiff.empty
        cryoSampleC6).1.climate.last_albedo_milli.getD 0 0 =
        (regionSampleC6.albedo_milli : Int) ∧
     (reconcile_inner worldSampleC10 FullDiff.empty
        cryoSampleC6).1.climate.temperature_baseline_tenths.getD 0 0 =
        worldSampleC10.climate.temperature_baseline_tenths.getD 0 0 ∧
     (∀ sv ∈ (reconcile_inner worldSampleC10 FullDiff.empty
        cryoSampleC6).2.temperature_baseline, sv.region ≠ 0) ∧
     ((∀ j, worldSampleC10.climate.last_albedo_milli.getD j 0 = 0) →
        (reconcile_inner worldSampleC10 FullDiff.empty cryoSampleC6).2 =
          FullDiff.empty)) :=
  ⟨rfl, rfl,
    claim_C10_zero_snapshot worldSampleC10 FullDiff.empty cryoSampleC6 0
      regionSampleC6 rfl rfl rfl⟩

end Sim

namespace Sim

/-! ## NDJSON frames (`src/io/frame.rs`)

`serde_json` serialization is modelled by explicit renderers: struct fields
in declaration order, `BTreeMap<String, i32>` as a `strCmp`-sorted
association list rendered in entry order, strings escaped exactly as
`serde_json` escapes them, and every field carrying
`#[serde(skip_serializing_if = "is_empty")]` omitted when empty, as the
attributes in `frame.rs` direct.  The one part left abstract is the `f32`
highlight level: its rendering is a function parameter `fl`. -/

/-- Highlight info payload, `frame.rs::HighlightInfo` (`level` is `f32`). -/
structure HighlightInfo where
  kind : String
  level : Float

/-- Frame highlight, `frame.rs::Highlight`; the `kind` field serializes
under the serde-renamed key `"type"`. -/
structure Highlight where
  kind : String
  region : Nat
  info : HighlightInfo

/-- `Highlight::hazard`. -/
def Highlight.hazard (region : Nat) (kind : String) (level : Float) : Highlight :=
  ⟨"hazard_flag", region, ⟨kind, level⟩⟩

/-- Per-frame diff maps, `frame.rs::FrameDiff`. -/
structure FrameDiff where
  biome : List (String × Int) := []
  insolation : List (String × Int) := []
  tide_envelope : List (String × Int) := []
  elevation : List (String × Int) := []
  temp : List (String × Int) := []
  precip : List (String × Int) := []
  precip_extreme : List (String × Int) := []
  humidity : List (String × Int) := []
  albedo : List (String × Int) := []
  permafrost_active : List (String × Int) := []
  freshwater_flux : List (String × Int) := []
  melt_pulse : List (String × Int) := []
  ice_mass : List (String × Int) := []
  heatwave_idx : List (String × Int) := []
  diag_climate : List (String × Int) := []
  soil : List (String × Int) := []
  water : List (String × Int) := []

/-- `FrameDiff::is_empty`. -/
def FrameDiff.is_empty (fd : FrameDiff) : Bool :=
  fd.biome.isEmpty && fd.insolation.isEmpty && fd.tide_envelope.isEmpty
    && fd.elevation.isEmpty && fd.temp.isEmpty && fd.precip.isEmpty
    && fd.precip_extreme.isEmpty && fd.humidity.isEmpty && fd.albedo.isEmpty
    && fd.permafrost_active.isEmpty && fd.freshwater_flux.isEmpty
    && fd.melt_pulse.isEmpty && fd.ice_mass.isEmpty && fd.heatwave_idx.isEmpty
    && fd.diag_climate.isEmpty && fd.soil.isEmpty && fd.water.isEmpty

/-- Frame metadata, `frame.rs::FrameWorldMeta`. -/
structure FrameWorldMeta where
  width : Nat
  height : Nat

/-- One NDJSON frame, `frame.rs::Frame`. -/
structure Frame where
  t : Nat
  world : FrameWorldMeta
  diff : FrameDiff
  diagnostics : List (String × Int)
  highlights : List Highlight
  chronicle : List String
  era_end : Bool

/-- Fold a diff list into a `BTreeMap` keyed by `World::region_key`, as each
`for` loop of `make_frame` does. -/
def frameMapOf {α : Type} (key : α → Nat) (val : α → Int) (l : List α) :
    List (String × Int) :=
  l.foldl (fun m a => FullDiff.upsertDiagnostic m (World.region_key (key a)) (val a)) []

/-- Frame construction, translated loop-for-loop from `frame.rs::make_frame`.
The diff's hazard events are never copied into the frame; `diagnostics`
moves over verbatim. -/
def make_frame (t : Nat) (diff : FullDiff) (highlights : List Highlight)
    (chronicle : List String) (era_end : Bool) (width height : Nat) : Frame :=
  { t := t,
    world := ⟨width, height⟩,
    diff :=
      { biome := frameMapOf BiomeChange.region BiomeChange.biome diff.biome,
        insolation := frameMapOf ScalarValue.region ScalarValue.value diff.insolation,
        tide_envelope := frameMapOf ScalarValue.region ScalarValue.value diff.tide_envelope,
        elevation := frameMapOf ScalarValue.region ScalarValue.value diff.elevation,
        temp := frameMapOf ScalarValue.region ScalarValue.value diff.temperature,
        precip := frameMapOf ScalarValue.region ScalarValue.value diff.precipitation,
        precip_extreme := frameMapOf ScalarValue.region ScalarValue.value diff.precip_extreme,
        humidity := frameMapOf ScalarValue.region ScalarValue.value diff.humidity,
        albedo := frameMapOf ScalarValue.region ScalarValue.value diff.albedo,
        permafrost_active :=
          frameMapOf ScalarValue.region ScalarValue.value diff.permafrost_active,
        freshwater_flux :=
          frameMapOf ScalarValue.region ScalarValue.value diff.freshwater_flux,
        melt_pulse := frameMapOf ScalarValue.region ScalarValue.value diff.melt_pulse,
        ice_mass := frameMapOf ScalarValue.region ScalarValue.value diff.ice_mass,
        heatwave_idx := frameMapOf ScalarValue.region ScalarValue.value diff.heatwave_idx,
        diag_climate := frameMapOf ScalarValue.region ScalarValue.value diff.diag_climate,
        soil := frameMapOf ResourceDelta.region ResourceDelta.delta diff.soil,
        water := frameMapOf ResourceDelta.region ResourceDelta.delta diff.water },
    diagnostics := diff.diagnostics,
    highlights := highlights,
    chronicle := chronicle,
    era_end := era_end }

/-- `serde_json` escape of one character. -/
def escChar (c : Char) : List Char :=
  if c = '"' then ['\\', '"']
  else if c = '\\' then ['\\', '\\']
  else if c = '\x08' then ['\\', 'b']
  else if c = '\t' then ['\\', 't']
  else if c = '\n' then ['\\', 'n']
  else if c = '\x0c' then ['\\', 'f']
  else if c = '\r' then ['\\', 'r']
  else if c.toNat < 32 then
    ['\\', 'u', '0', '0', digitChar (c.toNat / 16), digitChar (c.toNat % 16)]
  else [c]

/-- `serde_json` string escaping applied to a whole string. -/
def escString (s : String) : String :=
  String.mk (s.data.map escChar).join

/-- A JSON string literal. -/
def renderJsonString (s : String) : String :=
  "\"" ++ escString s ++ "\""

/-- Comma-separated join. -/
def joinComma : List String → String
  | [] => ""
  | [s] => s
  | s :: rest => s ++ "," ++ joinComma rest

/-- A JSON object from rendered key/value pieces. -/
def renderObj (pieces : List (String × String)) : String :=
  "\x7b" ++ joinComma (pieces.map (fun p => renderJsonString p.1 ++ ":" ++ p.2)) ++ "\x7d"

/-- A JSON array from rendered elements. -/
def renderArr (elems : List String) : String :=
  "[" ++ joinComma elems ++ "]"

/-- Object rendering of a `BTreeMap<String, i32>`. -/
def renderStrIntMap (m : List (String × Int)) : String :=
  renderObj (m.map (fun p => (p.1, intDecimal p.2)))

/-- Highlight rendering; the `f32` level is rendered by the parameter `fl`. -/
def renderHighlight (fl : Float → String) (h : Highlight) : String :=
  renderObj [("type", renderJsonString h.kind), ("region", natDecimal h.region),
    ("info", renderObj [("kind", renderJsonString h.info.kind),
      ("level", fl h.info.level)])]

/-- The (name, map) list of `FrameDiff` fields in declaration order. -/
def frameDiffFieldList (fd : FrameDiff) : List (String × List (String × Int)) :=
  [("biome", fd.biome), ("insolation", fd.insolation),
   ("tide_envelope", fd.tide_envelope), ("elevation", fd.elevation),
   ("temp", fd.temp), ("precip", fd.precip),
   ("precip_extreme", fd.precip_extreme), ("humidity", fd.humidity),
   ("albedo", fd.albedo), ("permafrost_active", fd.permafrost_active),
   ("freshwater_flux", fd.freshwater_flux), ("melt_pulse", fd.melt_pulse),
   ("ice_mass", fd.ice_mass), ("heatwave_idx", fd.heatwave_idx),
   ("diag_climate", fd.diag_climate), ("soil", fd.soil), ("water", fd.water)]

/-- The `FrameDiff` serde field names in declaration order. -/
def frameDiffNames : List String :=
  ["biome", "insolation", "tide_envelope", "elevation", "temp", "precip",
   "precip_extreme", "humidity", "albedo", "permafrost_active",
   "freshwater_flux", "melt_pulse", "ice_mass", "heatwave_idx",
   "diag_climate", "soil", "water"]

/-- The rendered key/value pieces of the `diff` object: every field carries
`skip_serializing_if = "BTreeMap::is_empty"` and is omitted when empty. -/
def frameDiffPieces (fd : FrameDiff) : List (String × String) :=
  (frameDiffFieldList fd).filterMap
    (fun p => if p.2.isEmpty then none else some (p.1, renderStrIntMap p.2))

/-- The top-level key/value pieces of a frame in `Frame` field declaration
order, with the serde-skipped fields omitted when empty. -/
def framePieces (fl : Float → String) (f : Frame) : List (String × String) :=
  [("t", natDecimal f.t),
   ("world", renderObj [("width", natDecimal f.world.width),
      ("height", natDecimal f.world.height)])]
  ++ (if FrameDiff.is_empty f.diff then []
      else [("diff", renderObj (frameDiffPieces f.diff))])
  ++ (if f.diagnostics.isEmpty then []
      else [("diagnostics", renderStrIntMap f.diagnostics)])
  ++ (if f.highlights.isEmpty then []
      else [("highlights", renderArr (f.highlights.map (renderHighlight fl)))])
  ++ (if f.chronicle.isEmpty then []
      else [("chronicle", renderArr (f.chronicle.map renderJsonString))])
  ++ [("era_end", if f.era_end then "true" else "false")]

/-- `serde_json::to_string` of a frame. -/
def frameBody (fl : Float → String) (f : Frame) : String :=
  renderObj (framePieces fl f)

/-- `Frame::to_ndjson`: the JSON line plus the trailing newline pushed by
`json.push` of a newline. -/
def frameNdjson (fl : Float → String) (f : Frame) : String :=
  frameBody fl f ++ "\n"

/-- A string free of literal newline characters. -/
def NLFree (s : String) : Prop := ∀ c ∈ s.data, c ≠ '\n'

theorem NLFree_mk (l : List Char) (h : ∀ c ∈ l, c ≠ '\n') : NLFree (String.mk l) :=
  h

theorem NLFree_of_data (s : String) (h : ∀ c ∈ s.data, c ≠ '\n') : NLFree s :=
  h

theorem NLFree_append (a b : String) (ha : NLFree a) (hb : NLFree b) :
    NLFree (a ++ b) := by
  cases a with
  | mk la =>
    cases b with
    | mk lb =>
      intro c hc
      rcases List.mem_append.mp hc with h | h
      · exact ha c h
      · exact hb c h

theorem NLFree_joinComma (l : List String) (h : ∀ s ∈ l, NLFree s) :
    NLFree (joinComma l) := by
  induction l with
  | nil => intro c hc; exact absurd hc (by simp [joinComma])
  | cons s rest ih =>
    cases rest with
    | nil =>
      rw [joinComma]
      exact h s (by simp)
    | cons t ts =>
      have hj : joinComma (s :: t :: ts) = s ++ "," ++ joinComma (t :: ts) := rfl
      rw [hj]
      refine NLFree_append _ _
        (NLFree_append _ _ (h s (by simp)) (NLFree_of_data _ (by decide))) ?_
      exact ih (fun x hx => h x (List.mem_cons_of_mem s hx))

theorem digitChar_ne_nl (n : Nat) : digitChar n ≠ '\n' := by
  unfold digitChar
  rw [List.getD_eq_getElem?_getD]
  cases hq : hexDigitChars[n]? with
  | none => simp
  | some c =>
    have hc : c ∈ hexDigitChars := List.getElem?_mem hq
    have : ∀ x ∈ hexDigitChars, x ≠ '\n' := by decide
    simpa [hq] using this c hc

theorem natDigitsRev_ne_nl (n : Nat) : ∀ c ∈ natDigitsRev n, c ≠ '\n' := by
  induction n using natDigitsRev.induct with
  | case1 n h =>
    rw [natDigitsRev, dif_pos h]
    intro c hc
    rw [List.mem_singleton.mp hc]
    exact digitChar_ne_nl n
  | case2 n h ih =>
    rw [natDigitsRev, dif_neg h]
    intro c hc
    rcases List.mem_cons.mp hc with hc | hc
    · rw [hc]; exact digitChar_ne_nl _
    · exact ih c hc

theorem NLFree_natDecimal (n : Nat) : NLFree (natDecimal n) := by
  refine NLFree_mk _ ?_
  intro c hc
  exact natDigitsRev_ne_nl n c (List.mem_reverse.mp hc)

theorem NLFree_intDecimal (i : Int) : NLFree (intDecimal i) := by
  unfold intDecimal
  split
  · refine NLFree_mk _ ?_
    intro c hc
    rcases List.mem_cons.mp hc with hc | hc
    · rw [hc]; decide
    · exact natDigitsRev_ne_nl _ c (List.mem_reverse.mp hc)
  · exact NLFree_natDecimal _

theorem escChar_ne_nl (c : Char) : ∀ x ∈ escChar c, x ≠ '\n' := by
  intro x hx
  unfold escChar at hx
  repeat' split at hx
  all_goals first
    | (fin_cases hx <;> first | decide | exact digitChar_ne_nl _)
    | (rename_i hge
       have hxc : x = c := List.mem_singleton.mp hx
       subst hxc
       intro hxn
       rw [hxn] at hge
       exact hge (by decide))

theorem NLFree_escString (s : String) : NLFree (escString s) := by
  refine NLFree_mk _ ?_
  intro c hc
  rcases List.mem_join.mp hc with ⟨l, hl, hcl⟩
  rcases List.mem_map.mp hl with ⟨d, _, hdl⟩
  exact escChar_ne_nl d c (hdl ▸ hcl)

theorem NLFree_renderJsonString (s : String) : NLFree (renderJsonString s) :=
  NLFree_append _ _
    (NLFree_append _ _ (NLFree_of_data _ (by decide)) (NLFree_escString s))
    (NLFree_of_data _ (by decide))

theorem NLFree_renderObj (pieces : List (String × String))
    (h : ∀ p ∈ pieces, NLFree p.2) : NLFree (renderObj pieces) := by
  refine NLFree_append _ _
    (NLFree_append _ _ (NLFree_of_data _ (by decide)) ?_)
    (NLFree_of_data _ (by decide))
  refine NLFree_joinComma _ ?_
  intro s hs
  rcases List.mem_map.mp hs with ⟨p, hp, hps⟩
  rw [← hps]
  refine NLFree_append _ _
    (NLFree_append _ _ (NLFree_renderJsonString _) (NLFree_of_data _ (by decide)))
    (h p hp)

theorem NLFree_renderArr (elems : List String) (h : ∀ s ∈ elems, NLFree s) :
    NLFree (renderArr elems) :=
  NLFree_append _ _
    (NLFree_append _ _ (NLFree_of_data _ (by decide)) (NLFree_joinComma _ h))
    (NLFree_of_data _ (by decide))

theorem NLFree_renderStrIntMap (m : List (String × Int)) :
    NLFree (renderStrIntMap m) := by
  refine NLFree_renderObj _ ?_
  intro p hp
  rcases List.mem_map.mp hp with ⟨q, _, hq⟩
  rw [← hq]
  exact NLFree_intDecimal _

theorem NLFree_renderHighlight (fl : Float → String) (h : Highlight)
    (hfl : NLFree (fl h.info.level)) : NLFree (renderHighlight fl h) := by
  refine NLFree_renderObj _ ?_
  intro p hp
  rcases List.mem_cons.mp hp with hp | hp
  · rw [hp]; exact NLFree_renderJsonString _
  rcases List.mem_cons.mp hp with hp | hp
  · rw [hp]; exact NLFree_natDecimal _
  rcases List.mem_cons.mp hp with hp | hp
  · rw [hp]
    refine NLFree_renderObj _ ?_
    intro q hq
    rcases List.mem_cons.mp hq with hq | hq
    · rw [hq]; exact NLFree_renderJsonString _
    rcases List.mem_cons.mp hq with hq | hq
    · rw [hq]; exact hfl
    · exact absurd hq (by simp)
  · exact absurd hp (by simp)

theorem mem_upsertDiagnostic (m : List (String × Int)) (k : String) (v : Int) :
    ∀ kv ∈ FullDiff.upsertDiagnostic m k v, kv.1 = k ∨ kv ∈ m := by
  induction m with
  | nil =>
    intro kv hkv
    rw [FullDiff.upsertDiagnostic] at hkv
    left
    rw [List.mem_singleton.mp hkv]
  | cons p rest ih =>
    intro kv hkv
    rw [FullDiff.upsertDiagnostic] at hkv
    rcases hcmp : strCmp p.1 k with _ | _ | _ <;> rw [hcmp] at hkv
    · rcases List.mem_cons.mp hkv with h | h
      · right; rw [h]; exact List.mem_cons_self p rest
      · rcases ih kv h with h1 | h1
        · left; exact h1
        · right; exact List.mem_cons_of_mem p h1
    · rcases List.mem_cons.mp hkv with h | h
      · left; rw [h]
      · right; exact List.mem_cons_of_mem p h
    · rcases List.mem_cons.mp hkv with h | h
      · left; rw [h]
      · right; exact h

theorem frameMapOf_keys {α : Type} (key : α → Nat) (val : α → Int) (l : List α) :
    ∀ kv ∈ frameMapOf key val l, ∃ i, kv.1 = World.region_key i := by
  suffices hgen : ∀ m, (∀ kv ∈ m, ∃ i, (kv : String × Int).1 = World.region_key i) →
      ∀ kv ∈ l.foldl
        (fun m a => FullDiff.upsertDiagnostic m (World.region_key (key a)) (val a)) m,
      ∃ i, kv.1 = World.region_key i by
    exact hgen [] (by simp)
  induction l with
  | nil => intro m hm; exact hm
  | cons a as ih =>
    intro m hm
    rw [List.foldl_cons]
    refine ih _ ?_
    intro kv hkv
    rcases mem_upsertDiagnostic _ _ _ kv hkv with h | h
    · exact ⟨key a, h⟩
    · exact hm kv h

theorem mem_frameDiffPieces (fd : FrameDiff) :
    ∀ kv ∈ frameDiffPieces fd,
      ∃ p ∈ frameDiffFieldList fd, p.2 ≠ [] ∧ kv = (p.1, renderStrIntMap p.2) := by
  intro kv hkv
  rcases List.mem_filterMap.mp hkv with ⟨p, hp, hpe⟩
  refine ⟨p, hp, ?_, ?_⟩
  · intro habs
    rw [habs] at hpe
    simp at hpe
  · rcases hq : p.2.isEmpty with _ | _
    · rw [if_neg (by simp [hq])] at hpe
      exact (Option.some.inj hpe).symm
    · rw [if_pos (by simp [hq])] at hpe
      exact absurd hpe (by simp)

theorem frameDiffFieldList_keys (fd : FrameDiff) :
    ∀ p ∈ frameDiffFieldList fd, p.1 ∈ frameDiffNames := by
  intro p hp
  have hmap : (frameDiffFieldList fd).map Prod.fst = frameDiffNames := rfl
  rw [← hmap]
  exact List.mem_map_of_mem Prod.fst hp

theorem mem_framePieces (fl : Float → String) (f : Frame) :
    ∀ kv ∈ framePieces fl f,
      kv = ("t", natDecimal f.t) ∨
      kv = ("world", renderObj [("width", natDecimal f.world.width),
        ("height", natDecimal f.world.height)]) ∨
      (kv = ("diff", renderObj (frameDiffPieces f.diff)) ∧
        FrameDiff.is_empty f.diff = false) ∨
      (kv = ("diagnostics", renderStrIntMap f.diagnostics) ∧
        f.diagnostics.isEmpty = false) ∨
      (kv = ("highlights", renderArr (f.highlights.map (renderHighlight fl))) ∧
        f.highlights.isEmpty = false) ∨
      (kv = ("chronicle", renderArr (f.chronicle.map renderJsonString)) ∧
        f.chronicle.isEmpty = false) ∨
      kv = ("era_end", if f.era_end then "true" else "false") := by
  intro kv hkv
  unfold framePieces at hkv
  rcases List.mem_append.mp hkv with h | h
  rcases List.mem_append.mp h with h | h
  rcases List.mem_append.mp h with h | h
  rcases List.mem_append.mp h with h | h
  rcases List.mem_append.mp h with h | h
  · rcases List.mem_cons.mp h with h | h
    · exact Or.inl h
    · exact Or.inr (Or.inl (List.mem_singleton.mp h))
  · rcases hq : FrameDiff.is_empty f.diff with _ | _ <;> rw [hq] at h
    · exact Or.inr (Or.inr (Or.inl ⟨List.mem_singleton.mp h, rfl⟩))
    · exact absurd h (by simp)
  · rcases hq : f.diagnostics.isEmpty with _ | _ <;> rw [hq] at h
    · exact Or.inr (Or.inr (Or.inr (Or.inl ⟨List.mem_singleton.mp h, rfl⟩)))
    · exact absurd h (by simp)
  · rcases hq : f.highlights.isEmpty with _ | _ <;> rw [hq] at h
    · exact Or.inr (Or.inr (Or.inr (Or.inr (Or.inl ⟨List.mem_singleton.mp h, rfl⟩))))
    · exact absurd h (by simp)
  · rcases hq : f.chronicle.isEmpty with _ | _ <;> rw [hq] at h
    · exact Or.inr (Or.inr (Or.inr (Or.inr (Or.inr (Or.inl
        ⟨List.mem_singleton.mp h, rfl⟩)))))
    · exact absurd h (by simp)
  · exact Or.inr (Or.inr (Or.inr (Or.inr (Or.inr (Or.inr
      (List.mem_singleton.mp h))))))

theorem framePieces_NLFree (fl : Float → String) (f : Frame)
    (hfl : ∀ h ∈ f.highlights, NLFree (fl h.info.level)) :
    ∀ kv ∈ framePieces fl f, NLFree kv.2 := by
  intro kv hkv
  rcases mem_framePieces fl f kv hkv with h | h | ⟨h, _⟩ | ⟨h, _⟩ | ⟨h, _⟩ | ⟨h, _⟩ | h
  · rw [h]; exact NLFree_natDecimal _
  · rw [h]
    refine NLFree_renderObj _ ?_
    intro p hp
    rcases List.mem_cons.mp hp with hp | hp
    · rw [hp]; exact NLFree_natDecimal _
    rcases List.mem_cons.mp hp with hp | hp
    · rw [hp]; exact NLFree_natDecimal _
    · exact absurd hp (by simp)
  · rw [h]
    refine NLFree_renderObj _ ?_
    intro p hp
    rcases mem_frameDiffPieces f.diff p hp with ⟨q, _, _, hq⟩
    rw [hq]
    exact NLFree_renderStrIntMap _
  · rw [h]; exact NLFree_renderStrIntMap _
  · rw [h]
    refine NLFree_renderArr _ ?_
    intro x hx
    rcases List.mem_map.mp hx with ⟨hh, hhm, hhs⟩
    rw [← hhs]
    exact NLFree_renderHighlight fl hh (hfl hh hhm)
  · rw [h]
    refine NLFree_renderArr _ ?_
    intro x hx
    rcases List.mem_map.mp hx with ⟨u, _, hus⟩
    rw [← hus]
    exact NLFree_renderJsonString _
  · rw [h]
    show NLFree (if f.era_end then "true" else "false")
    split <;> exact NLFree_of_data _ (by decide)

theorem frameBody_NLFree (fl : Float → String) (f : Frame)
    (hfl : ∀ h ∈ f.highlights, NLFree (fl h.info.level)) :
    NLFree (frameBody fl f) :=
  NLFree_renderObj _ (framePieces_NLFree fl f hfl)

/-- The C9 frame contract for one call of `make_frame`: the NDJSON output is
one newline-terminated line with a newline-free body, the frame ignores the
diff's hazard events and its `diff` object never carries a `hazards` key,
every key of every diff sub-map is a `World::region_key`, a sub-map whose
entry list is empty contributes no key, and an empty diff, diagnostics,
highlight list or chronicle is omitted from the top-level object. -/
def FrameSpecC9 (fl : Float → String) (t : Nat) (d : FullDiff) (hl : List Highlight)
    (ch : List String) (e : Bool) (wd ht : Nat) : Prop :=
  frameNdjson fl (make_frame t d hl ch e wd ht) =
      frameBody fl (make_frame t d hl ch e wd ht) ++ "\n" ∧
  NLFree (frameBody fl (make_frame t d hl ch e wd ht)) ∧
  make_frame t d hl ch e wd ht = make_frame t { d with hazards := [] } hl ch e wd ht ∧
  (∀ kv ∈ frameDiffPieces (make_frame t d hl ch e wd ht).diff, kv.1 ≠ "hazards") ∧
  (∀ p ∈ frameDiffFieldList (make_frame t d hl ch e wd ht).diff,
    ∀ kv ∈ p.2, ∃ i, kv.1 = World.region_key i) ∧
  (∀ name, (∀ p ∈ frameDiffFieldList (make_frame t d hl ch e wd ht).diff,
      p.1 = name → p.2 = []) →
    ∀ kv ∈ frameDiffPieces (make_frame t d hl ch e wd ht).diff, kv.1 ≠ name) ∧
  (FrameDiff.is_empty (make_frame t d hl ch e wd ht).diff = true →
    ∀ kv ∈ framePieces fl (make_frame t d hl ch e wd ht), kv.1 ≠ "diff") ∧
  (d.diagnostics = [] →
    ∀ kv ∈ framePieces fl (make_frame t d hl ch e wd ht), kv.1 ≠ "diagnostics") ∧
  (hl = [] →
    ∀ kv ∈ framePieces fl (make_frame t d hl ch e wd ht), kv.1 ≠ "highlights") ∧
  (ch = [] →
    ∀ kv ∈ framePieces fl (make_frame t d hl ch e wd ht), kv.1 ≠ "chronicle")

/-- C9: for every diff, highlights, chronicle and tick, the frame built by
`make_frame` serializes to a single JSON line terminated by a newline, its
`diff` object never contains a `hazards` key (the diff's hazard events are
ignored entirely, being carried only via highlights), every region key of
every diff sub-map has the form `r:<decimal index>` produced by
`World::region_key`, and empty sub-maps — and an empty diff, diagnostics,
highlights or chronicle — are omitted from the output.  The `f32` highlight
levels are rendered by an arbitrary parameter `fl`, assumed newline-free on
the levels actually present. -/
theorem claim_C9_frame_shape (fl : Float → String) (t : Nat) (d : FullDiff)
    (hl : List Highlight) (ch : List String) (e : Bool) (wd ht : Nat)
    (hfl : ∀ h ∈ hl, NLFree (fl h.info.level)) :
    FrameSpecC9 fl t d hl ch e wd ht := by
  unfold FrameSpecC9
  refine ⟨rfl, frameBody_NLFree fl _ hfl, rfl, ?_, ?_, ?_, ?_, ?_, ?_, ?_⟩
  · intro kv hkv
    rcases mem_frameDiffPieces _ kv hkv with ⟨p, hp, _, hkvp⟩
    have hmem := frameDiffFieldList_keys _ p hp
    rw [hkvp]
    dsimp only
    intro habs
    rw [habs] at hmem
    exact absurd hmem (by decide)
  · intro p hp
    fin_cases hp <;> exact frameMapOf_keys _ _ _
  · intro name hname kv hkv
    rcases mem_frameDiffPieces _ kv hkv with ⟨p, hp, hne, hkvp⟩
    rw [hkvp]
    dsimp only
    intro habs
    exact hne (hname p hp habs)
  · intro hE kv hkv
    rcases mem_framePieces fl _ kv hkv with h | h | ⟨_, hne⟩ | ⟨h, _⟩ | ⟨h, _⟩ | ⟨h, _⟩ | h
    · rw [h]; show "t" ≠ "diff"; decide
    · rw [h]; show "world" ≠ "diff"; decide
    · rw [hE] at hne; exact absurd hne (by decide)
    · rw [h]; show "diagnostics" ≠ "diff"; decide
    · rw [h]; show "highlights" ≠ "diff"; decide
    · rw [h]; show "chronicle" ≠ "diff"; decide
    · rw [h]; show "era_end" ≠ "diff"; decide
  · intro hd kv hkv
    have hE : (make_frame t d hl ch e wd ht).diagnostics.isEmpty = true := by
      show d.diagnostics.isEmpty = true
      rw [hd]
      rfl
    rcases mem_framePieces fl _ kv hkv with h | h | ⟨h, _⟩ | ⟨_, hne⟩ | ⟨h, _⟩ | ⟨h, _⟩ | h
    · rw [h]; show "t" ≠ "diagnostics"; decide
    · rw [h]; show "world" ≠ "diagnostics"; decide
    · rw [h]; show "diff" ≠ "diagnostics"; decide
    · rw [hE] at hne; exact absurd hne (by decide)
    · rw [h]; show "highlights" ≠ "diagnostics"; decide
    · rw [h]; show "chronicle" ≠ "diagnostics"; decide
    · rw [h]; show "era_end" ≠ "diagnostics"; decide
  · intro hhl kv hkv
    have hE : (make_frame t d hl ch e wd ht).highlights.isEmpty = true := by
      show hl.isEmpty = true
      rw [hhl]
      rfl
    rcases mem_framePieces fl _ kv hkv with h | h | ⟨h, _⟩ | ⟨h, _⟩ | ⟨_, hne⟩ | ⟨h, _⟩ | h
    · rw [h]; show "t" ≠ "highlights"; decide
    · rw [h]; show "world" ≠ "highlights"; decide
    · rw [h]; show "diff" ≠ "highlights"; decide
    · rw [h]; show "diagnostics" ≠ "highlights"; decide
    · rw [hE] at hne; exact absurd hne (by decide)
    · rw [h]; show "chronicle" ≠ "highlights"; decide
    · rw [h]; show "era_end" ≠ "highlights"; decide
  · intro hch kv hkv
    have hE : (make_frame t d hl ch e wd ht).chronicle.isEmpty = true := by
      show ch.isEmpty = true
      rw [hch]
      rfl
    rcases mem_framePieces fl _ kv hkv with h | h | ⟨h, _⟩ | ⟨h, _⟩ | ⟨h, _⟩ | ⟨_, hne⟩ | h
    · rw [h]; show "t" ≠ "chronicle"; decide
    · rw [h]; show "world" ≠ "chronicle"; decide
    · rw [h]; show "diff" ≠ "chronicle"; decide
    · rw [h]; show "diagnostics" ≠ "chronicle"; decide
    · rw [h]; show "highlights" ≠ "chronicle"; decide
    · rw [hE] at hne; exact absurd hne (by decide)
    · rw [h]; show "era_end" ≠ "chronicle"; decide

/-- Diff used by the C9 witness: biome, water and soil writes plus a hazard
event that must not surface in the frame. -/
def diffSampleC9 : FullDiff :=
  { biome := [⟨0, 3⟩], water := [⟨1, 5⟩], soil := [⟨2, -7⟩],
    hazards := [⟨0, 4500, 0⟩] }

/-- Fixed rendering of `f32` levels for the C9 witness. -/
def flSampleC9 : Float → String := fun _ => "0.0"

/-- C9 witness: the frame-shape theorem applied at a concrete diff with no
highlights and no chronicle. -/
theorem claim_C9_witness : FrameSpecC9 flSampleC9 1 diffSampleC9 [] [] false 8 4 :=
  claim_C9_frame_shape flSampleC9 1 diffSampleC9 [] [] false 8 4 (by simp)

end Sim




namespace Sim

/-! ## Deterministic streams (`src/rng.rs`)

`u64` arithmetic is modelled on `Nat` with explicit reduction `% 2^64`
(`m64`); wrapping multiplication and addition reduce after each operation,
`>>>` is logical shift right, `^^^` is bitwise xor (both already confined to
64 bits).  Byte strings feeding the FNV-1a hash are stage labels, which are
ASCII in the source, so their UTF-8 bytes are their code points. -/

/-- Reduce to 64 bits. -/
def m64 (n : Nat) : Nat := n % (2 ^ 64)

/-- `rng.rs::mix64` (splitmix64 finalizer). -/
def mix64 (z : Nat) : Nat :=
  let z1 := m64 ((z ^^^ (z >>> 30)) * 0xBF58476D1CE4E5B9)
  let z2 := m64 ((z1 ^^^ (z1 >>> 27)) * 0x94D049BB133111EB)
  z2 ^^^ (z2 >>> 31)

/-- UTF-8 bytes of an ASCII string (code points, see the section note). -/
def asciiBytes (s : String) : List Nat := s.data.map Char.toNat

/-- `rng.rs::fnv1a64`. -/
def fnv1a64 (bytes : List Nat) : Nat :=
  bytes.foldl (fun hash b => m64 ((hash ^^^ b) * 0x100000001b3)) 0xcbf29ce484222325

/-- `rng.rs::stream_label`. -/
def stream_label (name : String) : Nat := fnv1a64 (asciiBytes name)

/-- Deterministic random stream, `rng.rs::Stream`; the `u128` state is split
into its upper (`stream_id`) and lower (`counter`) 64-bit halves. -/
structure Stream where
  stream_id : Nat
  counter : Nat

/-- `Stream::from`. -/
def Stream.from (seed : Nat) (stage : String) (tick : Nat) : Stream :=
  let stage_hash := fnv1a64 (asciiBytes stage)
  let stream_id0 := m64 (m64 (seed * 0xA0761D6478BD642F) + 0xE7037ED1A0B428DB)
    ^^^ m64 (tick * 0x8E9D5A8F6A09E667) ^^^ stage_hash
  let stream_id := mix64 stream_id0
  let counter := mix64 (stream_id ^^^ 0xD1342543DE82EF95)
  ⟨stream_id, counter⟩

/-- `Stream::derive`. -/
def Stream.derive (s : Stream) (label : Nat) : Stream :=
  let derived := mix64 (s.stream_id ^^^ mix64 (label ^^^ 0x94D049BB133111EB))
  let counter := mix64 (derived ^^^ 0xBF58476D1CE4E5B9)
  ⟨derived, counter⟩

/-- `Stream::next_u64`: the advanced stream together with the sample. -/
def Stream.next_u64 (s : Stream) : Stream × Nat :=
  let counter := m64 (s.counter + 0x9E3779B97F4A7C15)
  (⟨s.stream_id, counter⟩, mix64 (s.stream_id ^^^ counter))

/-! ## Kernel scheduling (`src/schedule.rs`) and the tick driver (`src/lib.rs`)

Kernels are parameters: an immutable kernel (`update(&*world, rng)`) maps a
world and its derived stream to `Except String KernelRun`; a mutable kernel
(`update(world, rng)` — atmosphere and cryosphere) additionally returns the
world, also on error, mirroring mutation through `&mut World`.  `tick_once`
itself returns the final world in both cases (the state of the `&mut World`
after the call) next to the `Result`.  The `u64` tick arithmetic is modelled
on unbounded `Nat`: `world.tick + 1` never wraps here, while in Rust
`world.tick + 1` would panic in a debug build at `u64::MAX`. -/

/-- Kernel run result, `schedule.rs::KernelRun`. -/
structure KernelRun where
  diff : FullDiff
  chronicle : List String
  highlights : List Highlight

/-- `schedule.rs::run_kernel`: derive the kernel stream, run the kernel,
merge its diff into the aggregate and commit it to the world. -/
def run_kernel (world : World) (aggregate : FullDiff) (parent : Stream)
    (stage_label : String)
    (runner : World → Stream → World × Except String KernelRun) :
    World × Except String (FullDiff × KernelRun) :=
  let kernel_rng := parent.derive (stream_label stage_label)
  match runner world kernel_rng with
  | (w1, .error e) => (w1, .error e)
  | (w1, .ok run) => (apply w1 run.diff, .ok (aggregate.merge run.diff, run))

/-- Adapter for kernels that take the world immutably. -/
def liftImm (k : World → Stream → Except String KernelRun) :
    World → Stream → World × Except String KernelRun :=
  fun w rng => (w, k w rng)

/-- `climate::STAGE`. -/
def climateSTAGE : String := "kernel:climate"

/-- `climate::CORE_STAGE`. -/
def climateCoreSTAGE : String := "kernel:climate/core"

/-- `astronomy::STAGE`. -/
def astronomySTAGE : String := "kernel:astronomy"

/-- `geodynamics::STAGE`. -/
def geodynamicsSTAGE : String := "kernel:geodynamics"

/-- `atmosphere::STAGE`. -/
def atmosphereSTAGE : String := "kernel:atmosphere"

/-- `cryosphere::STAGE`. -/
def cryosphereSTAGE : String := "kernel:cryosphere"

/-- `ecology::STAGE`. -/
def ecologySTAGE : String := "kernel:ecology"

/-- `climate_diag::STAGE`. -/
def climateDiagSTAGE : String := "CLIMATE::climate_diag"

/-- `coupler::CHRONICLE_LINE`. -/
def couplerChronicleLine : String :=
  "Cryosphere shifts rebalanced atmospheric energy baselines across the globe."

/-- The atmosphere chronicle replacement line pushed by `tick_once`. -/
def hadleyChronicleLine : String :=
  "Hadley belt drifted northward under seasonal tilt."

/-- `lib.rs::tick_once`, with the eight kernel updates as parameters
(astronomy, geodynamics, climate core, ecology and climate_diag take the
world immutably; atmosphere and cryosphere mutably) and the coupler inlined
as `reconcile_inner` (`reconcile_with_world` is its thread-local context
wrapper, and its only error — a missing context — cannot occur there). -/
def tickOnce (aK gK cK eK dK : World → Stream → Except String KernelRun)
    (atK cyK : World → Stream → World × Except String KernelRun)
    (world : World) (seed tick : Nat) :
    World × Except String (FullDiff × List String × List Highlight) :=
  if tick = world.tick + 1 then
    let climate_stage_rng := Stream.from seed climateSTAGE tick
    match run_kernel world FullDiff.empty climate_stage_rng astronomySTAGE (liftImm aK) with
    | (w1, .error e) => (w1, .error e)
    | (w1, .ok (agg1, astronomy_run)) =>
      match run_kernel w1 agg1 climate_stage_rng geodynamicsSTAGE (liftImm gK) with
      | (w2, .error e) => (w2, .error e)
      | (w2, .ok (agg2, geodynamics_run)) =>
        match run_kernel w2 agg2 climate_stage_rng atmosphereSTAGE atK with
        | (w3, .error e) => (w3, .error e)
        | (w3, .ok (agg3, atmosphere_run)) =>
          match run_kernel w3 agg3 climate_stage_rng cryosphereSTAGE cyK with
          | (w4, .error e) => (w4, .error e)
          | (w4, .ok (agg4, cryosphere_run)) =>
            let chronicle4 := astronomy_run.chronicle ++ geodynamics_run.chronicle
              ++ (if atmosphere_run.chronicle.isEmpty then [] else [hadleyChronicleLine])
              ++ cryosphere_run.chronicle
            let highlights4 := astronomy_run.highlights ++ geodynamics_run.highlights
              ++ atmosphere_run.highlights ++ cryosphere_run.highlights
            match reconcile_inner w4 atmosphere_run.diff cryosphere_run.diff with
            | (w5, coupler_diff) =>
              let coupler_active := !coupler_diff.is_empty
              let agg5 := agg4.merge coupler_diff
              let w5 := apply w5 coupler_diff
              let chronicle5 := chronicle4
                ++ (if coupler_active then [couplerChronicleLine] else [])
              let climate_diag_rng := Stream.from seed climateDiagSTAGE tick
              match dK w5 climate_diag_rng with
              | .error e => (w5, .error e)
              | .ok climate_diag_run =>
                let agg6 := agg5.merge climate_diag_run.diff
                let w6 := apply w5 climate_diag_run.diff
                let chronicle6 := chronicle5 ++ climate_diag_run.chronicle
                let highlights6 := highlights4 ++ climate_diag_run.highlights
                match run_kernel w6 agg6 climate_stage_rng climateCoreSTAGE (liftImm cK) with
                | (w7, .error e) => (w7, .error e)
                | (w7, .ok (agg7, climate_run)) =>
                  match run_kernel w7 agg7 climate_stage_rng ecologySTAGE (liftImm eK) with
                  | (w8, .error e) => (w8, .error e)
                  | (w8, .ok (agg8, ecology_run)) =>
                    let chronicle8 := chronicle6 ++ climate_run.chronicle
                      ++ ecology_run.chronicle
                    let highlights8 := highlights6 ++ climate_run.highlights
                      ++ ecology_run.highlights
                    let chronicle_rng :=
                      climate_stage_rng.derive (stream_label "kernel:chronicle")
                    let _ := chronicle_rng.next_u64
                    ({ w8 with tick := tick }, .ok (agg8, chronicle8, highlights8))
  else
    (world, .error ("tick_once called with out-of-order tick: current="
      ++ natDecimal world.tick ++ " requested=" ++ natDecimal tick))

/-- C2: `tick_once` succeeds only when `tick = world.tick + 1`; for every
other tick value (in particular `world.tick` and `world.tick + 2`, neither
of which equals `world.tick + 1` on `Nat`) it returns the out-of-order error
and hands back the world entirely unchanged, and on success the final
world's tick is exactly the requested `tick = world.tick + 1` (an increase
of exactly 1).  Proved for every choice of the eight kernel behaviours. -/
theorem claim_C2_tick_order (aK gK cK eK dK : World → Stream → Except String KernelRun)
    (atK cyK : World → Stream → World × Except String KernelRun)
    (w : World) (seed tick : Nat) :
    (tick ≠ w.tick + 1 →
      tickOnce aK gK cK eK dK atK cyK w seed tick =
        (w, Except.error ("tick_once called with out-of-order tick: current="
          ++ natDecimal w.tick ++ " requested=" ++ natDecimal tick))) ∧
    (∀ w' res, tickOnce aK gK cK eK dK atK cyK w seed tick = (w', Except.ok res) →
      tick = w.tick + 1 ∧ w'.tick = tick ∧ w'.tick = w.tick + 1) := by
  constructor
  · intro hne
    unfold tickOnce
    rw [if_neg hne]
  · intro w' res hok
    by_cases h : tick = w.tick + 1
    · refine ⟨h, ?_, ?_⟩ <;>
        [skip; rw [← h]] <;>
      · unfold tickOnce at hok
        rw [if_pos h] at hok
        dsimp only at hok
        repeat' split at hok
        all_goals rw [Prod.mk.injEq] at hok
        all_goals first
          | exact absurd hok.2 (fun hc => Except.noConfusion hc)
          | rw [← hok.1]
    · unfold tickOnce at hok
      rw [if_neg h] at hok
      rw [Prod.mk.injEq] at hok
      exact absurd hok.2 (fun hc => Except.noConfusion hc)

/-- A kernel that does nothing, for the C2 witness. -/
def kernelSampleOk : World → Stream → Except String KernelRun :=
  fun _ _ => Except.ok ⟨FullDiff.empty, [], []⟩

/-- A mutating kernel that does nothing, for the C2 witness. -/
def kernelSampleMut : World → Stream → World × Except String KernelRun :=
  fun w _ => (w, Except.ok ⟨FullDiff.empty, [], []⟩)

/-- C2 witness: the tick-order theorem applied at a concrete world of tick 0
with the trivial kernels, at the rejected ticks 0 and 2 and at the accepted
tick 1. -/
theorem claim_C2_witness :
    (tickOnce kernelSampleOk kernelSampleOk kernelSampleOk kernelSampleOk kernelSampleOk
        kernelSampleMut kernelSampleMut worldSampleA 7 0 =
      (worldSampleA, Except.error ("tick_once called with out-of-order tick: current="
        ++ natDecimal worldSampleA.tick ++ " requested=" ++ natDecimal 0))) ∧
    (tickOnce kernelSampleOk kernelSampleOk kernelSampleOk kernelSampleOk kernelSampleOk
        kernelSampleMut kernelSampleMut worldSampleA 7 2 =
      (worldSampleA, Except.error ("tick_once called with out-of-order tick: current="
        ++ natDecimal worldSampleA.tick ++ " requested=" ++ natDecimal 2))) ∧
    (1 = worldSampleA.tick + 1 ∧
      ({ worldSampleA with tick := 1 } : World).tick = 1 ∧
      ({ worldSampleA with tick := 1 } : World).tick = worldSampleA.tick + 1) :=
  ⟨(claim_C2_tick_order kernelSampleOk kernelSampleOk kernelSampleOk kernelSampleOk
      kernelSampleOk kernelSampleMut kernelSampleMut worldSampleA 7 0).1 (by decide),
   (claim_C2_tick_order kernelSampleOk kernelSampleOk kernelSampleOk kernelSampleOk
      kernelSampleOk kernelSampleMut kernelSampleMut worldSampleA 7 2).1 (by decide),
   (claim_C2_tick_order kernelSampleOk kernelSampleOk kernelSampleOk kernelSampleOk
      kernelSampleOk kernelSampleMut kernelSampleMut worldSampleA 7 1).2
     ({ worldSampleA with tick := 1 })
     (FullDiff.empty.merge FullDiff.empty |>.merge FullDiff.empty |>.merge FullDiff.empty
       |>.merge FullDiff.empty |>.merge FullDiff.empty |>.merge FullDiff.empty
       |>.merge FullDiff.empty, [], []) rfl⟩

end Sim

